import Mathlib

/-!
Shallow embedding of the underwriting matching core of the
lender-matching platform (backend/app/services): the rule evaluators,
the rule engine, the rate and probability scorer, the three-tier
matcher, and the orchestration of an underwriting run.

Python `Decimal` values are modelled as rationals (`ℚ`), integers as
`ℤ`, nullable columns as `Option`, and JSONB mappings as records of
`Option` fields.  Reads of the system clock (`date.today()`,
`datetime.now()`) inside evaluators are modelled by threading an
explicit `PyDate` argument through the functions that perform them.
-/

set_option allowUnsafeReducibility true in
attribute [semireducible] Rat.add Rat.mul Rat.sub Rat.div Rat.neg Rat.inv

/-- Rounding of a rational to the nearest integer with ties to even,
matching the default `ROUND_HALF_EVEN` context of Python `Decimal`. -/
def roundHalfEven (x : ℚ) : ℤ :=
  let n := ⌊x⌋
  let f := x - (n : ℚ)
  if f < 1/2 then n
  else if 1/2 < f then n + 1
  else if n % 2 = 0 then n else n + 1

/-- Quantization to two fractional digits, as `Decimal.quantize(Decimal("0.01"))`. -/
def quantize2 (x : ℚ) : ℚ := (roundHalfEven (x * 100) : ℚ) / 100

theorem roundHalfEven_nonneg (x : ℚ) (hx : 0 ≤ x) : 0 ≤ roundHalfEven x := by
  unfold roundHalfEven
  have h0 : (0 : ℤ) ≤ ⌊x⌋ := Int.floor_nonneg.mpr hx
  dsimp only
  split
  · exact h0
  · split
    · omega
    · split <;> omega

theorem roundHalfEven_le_of_le (x : ℚ) (m : ℤ) (h : x ≤ (m : ℚ)) :
    roundHalfEven x ≤ m := by
  have hfl : ⌊x⌋ ≤ m := by
    have h2 := Int.floor_le_floor h
    simpa using h2
  unfold roundHalfEven
  dsimp only
  split
  · exact hfl
  next h1 =>
    push_neg at h1
    have hlt : ⌊x⌋ < m := by
      rcases eq_or_lt_of_le hfl with heq | hlt
      · exfalso
        have hxle : x ≤ (⌊x⌋ : ℚ) := by
          rw [heq]; exact h
        linarith
      · exact hlt
    split
    · omega
    · split <;> omega

theorem quantize2_nonneg (x : ℚ) (hx : 0 ≤ x) : 0 ≤ quantize2 x := by
  unfold quantize2
  have h := roundHalfEven_nonneg (x * 100) (by positivity)
  positivity

theorem quantize2_le_hundred (x : ℚ) (hx : x ≤ 100) : quantize2 x ≤ 100 := by
  unfold quantize2
  have h : roundHalfEven (x * 100) ≤ (10000 : ℤ) := by
    apply roundHalfEven_le_of_le
    push_cast
    linarith
  rw [div_le_iff₀ (by norm_num)]
  calc ((roundHalfEven (x * 100) : ℚ)) ≤ ((10000 : ℤ) : ℚ) := by exact_mod_cast h
    _ = 100 * 100 := by norm_num

/-- Python `max` on two rationals: the second argument wins only when
strictly greater, and the result computes by kernel reduction. -/
def pymax (a b : ℚ) : ℚ := if a < b then b else a

/-- Python `min` on two rationals. -/
def pymin (a b : ℚ) : ℚ := if b < a then b else a

theorem pymax_eq_max (a b : ℚ) : pymax a b = max a b := by
  unfold pymax
  rcases lt_or_le a b with h | h
  · rw [if_pos h, max_eq_right h.le]
  · rw [if_neg (not_lt.mpr h), max_eq_left h]

theorem pymin_eq_min (a b : ℚ) : pymin a b = min a b := by
  unfold pymin
  rcases lt_or_le b a with h | h
  · rw [if_pos h, min_eq_right h.le]
  · rw [if_neg (not_lt.mpr h), min_eq_left h]

/-! ## Binary floating point and `decimal` context arithmetic

The source computes the partial-credit fractions of the per-rule
evaluators as `Decimal(str(max(0, 1 - gap/band)))`: the division and
the subtraction run in IEEE-754 binary64, `str` produces the shortest
decimal literal that parses back to the same double, and `Decimal`
reads that literal exactly.  `Decimal` arithmetic itself rounds every
operation to the default context precision of 28 significant digits
with ROUND_HALF_EVEN.  Both roundings are modelled exactly over ℚ; the
exponent searches below cover every magnitude these evaluators produce
(all of which are normal binary64 numbers). -/

/-- `2^e` as a rational, for an integer exponent. -/
def qpow2 (e : ℤ) : ℚ :=
  if 0 ≤ e then ((2 ^ e.toNat : ℕ) : ℚ) else 1 / ((2 ^ (-e).toNat : ℕ) : ℚ)

/-- `10^e` as a rational, for an integer exponent. -/
def qpow10 (e : ℤ) : ℚ :=
  if 0 ≤ e then ((10 ^ e.toNat : ℕ) : ℚ) else 1 / ((10 ^ (-e).toNat : ℕ) : ℚ)

theorem qpow2_pos (e : ℤ) : 0 < qpow2 e := by
  unfold qpow2
  split
  · push_cast
    positivity
  · push_cast
    positivity

theorem qpow10_pos (e : ℤ) : 0 < qpow10 e := by
  unfold qpow10
  split
  · push_cast
    positivity
  · push_cast
    positivity

/-- The binary exponent `e` with `2^e ≤ x < 2^(e+1)`, located inside
the window `[-70, 10]` that contains every value this development
rounds to a double (fractions in `(2^-60, 2]`). -/
def floorLog2Q (x : ℚ) : ℤ :=
  match (List.range 81).findSome? (fun i =>
    let e : ℤ := (i : ℤ) - 70
    if qpow2 e ≤ x ∧ x < qpow2 (e + 1) then some e else none) with
  | some e => e
  | none => 0

/-- The decimal exponent `e` with `10^e ≤ x < 10^(e+1)`, located inside
the window `[-40, 40]` that contains every value this development
rounds to a fixed number of significant digits. -/
def floorLog10Q (x : ℚ) : ℤ :=
  match (List.range 81).findSome? (fun i =>
    let e : ℤ := (i : ℤ) - 40
    if qpow10 e ≤ x ∧ x < qpow10 (e + 1) then some e else none) with
  | some e => e
  | none => 0

/-- Round a positive rational to `k` significant decimal digits, ties
to even — the rounding a `decimal` context or a float repr applies. -/
def roundSigDigits (k : ℕ) (x : ℚ) : ℚ :=
  (roundHalfEven (x * qpow10 ((k : ℤ) - 1 - floorLog10Q x)) : ℚ) /
    qpow10 ((k : ℤ) - 1 - floorLog10Q x)

theorem roundSigDigits_nonneg (k : ℕ) (x : ℚ) (hx : 0 ≤ x) :
    0 ≤ roundSigDigits k x := by
  unfold roundSigDigits
  have hs : 0 < qpow10 ((k : ℤ) - 1 - floorLog10Q x) := qpow10_pos _
  have hr : 0 ≤ (roundHalfEven (x * qpow10 ((k : ℤ) - 1 - floorLog10Q x)) : ℚ) := by
    exact_mod_cast roundHalfEven_nonneg _ (mul_nonneg hx hs.le)
  exact div_nonneg hr hs.le

/-- The result of one `decimal` arithmetic operation under the default
context: the exact value rounded to 28 significant digits, half to
even. -/
def roundDecimal28 (x : ℚ) : ℚ :=
  if x = 0 then 0
  else if 0 < x then roundSigDigits 28 x
  else -(roundSigDigits 28 (-x))

theorem roundDecimal28_zero : roundDecimal28 0 = 0 := by
  unfold roundDecimal28
  simp

/-- Round a positive rational to the nearest IEEE-754 binary64 value:
53 significant bits, ties to the even significand. -/
def roundDoublePos (x : ℚ) : ℚ :=
  (roundHalfEven (x / qpow2 (floorLog2Q x - 52)) : ℚ) * qpow2 (floorLog2Q x - 52)

/-- Round a rational to the nearest IEEE-754 binary64 value (the
magnitudes this development evaluates are all normal). -/
def roundDouble (x : ℚ) : ℚ :=
  if x = 0 then 0
  else if 0 < x then roundDoublePos x
  else -(roundDoublePos (-x))

/-- Shortest-round-trip search for `str` on a double of value `d`: the
first significant-digit count `k ≥` the starting index whose correctly
rounded `k`-digit decimal parses back to the same double.  Seventeen
digits always round-trip, so the fuel never runs out on a real
double. -/
def float_repr_from (d : ℚ) (k : ℕ) : ℕ → ℚ
  | 0 => d
  | fuel + 1 =>
    if roundDouble (roundSigDigits k d) = d then roundSigDigits k d
    else float_repr_from d (k + 1) fuel

theorem float_repr_from_nonneg (d : ℚ) (hd : 0 ≤ d) :
    ∀ (fuel k : ℕ), 0 ≤ float_repr_from d k fuel := by
  intro fuel
  induction fuel with
  | zero => intro k; exact hd
  | succ n ih =>
    intro k
    unfold float_repr_from
    split
    · exact roundSigDigits_nonneg _ _ hd
    · exact ih _

/-- Value of Python `str` applied to a float of exact value `d`: the
decimal with the fewest significant digits that rounds back to the
same double. -/
def float_repr (d : ℚ) : ℚ :=
  if d = 0 then 0
  else if 0 < d then float_repr_from d 1 17
  else -(float_repr_from (-d) 1 17)

theorem float_repr_nonneg (d : ℚ) (hd : 0 ≤ d) : 0 ≤ float_repr d := by
  unfold float_repr
  split
  · exact le_refl 0
  next h0 =>
    split
    next => exact float_repr_from_nonneg d hd 17 1
    next hpos => exact absurd (lt_of_le_of_ne hd (Ne.symm h0)) hpos

/-- Exact value of `Decimal(str(max(0, 1 - (gap / band))))` as the
evaluators compute it: `gap / band` is binary64 division, the
subtraction rounds again in binary64, `max` compares exactly (and
yields the integer `0` when the float is not positive), and
`Decimal(str(...))` reads the shortest round-trip decimal of the
double exactly. -/
def float_credit_fraction (gap band : ℤ) : ℚ :=
  float_repr (pymax 0 (roundDouble (1 - roundDouble ((gap : ℚ) / (band : ℚ)))))

theorem float_credit_fraction_nonneg (gap band : ℤ) :
    0 ≤ float_credit_fraction gap band := by
  unfold float_credit_fraction
  apply float_repr_nonneg
  unfold pymax
  split
  next h => exact le_of_lt h
  next => exact le_refl 0

/-! ## Clock

Evaluators in the source call `date.today()` and `datetime.now()`
directly.  `PyDate` carries the fields those call sites read. -/

/-- Calendar date as read from the system clock; only the year and month
components are consumed by the source code under study. -/
structure PyDate where
  year : ℤ
  month : ℤ
deriving Repr, DecidableEq

/-! ## Rate and probability scorer (`scoring.py`) -/

/-- Row of the `base_rates` list inside `rate_metadata`.  Every field is
optional because the JSONB rows are open mappings; `min_term` and
`max_term` are carried by the data model (§4.4 of the specification)
even though `_find_base_rate` never reads them. -/
structure RateEntry where
  min_amount : Option ℚ
  max_amount : Option ℚ
  rate : Option ℚ
  min_term : Option ℤ
  max_term : Option ℤ
deriving Repr, DecidableEq

/-- Row of the `adjustments` list inside `rate_metadata`. -/
structure RateAdjustment where
  condition : String
  delta : ℚ
deriving Repr, DecidableEq

/-- Parsed `rate_metadata` JSONB.  A missing or non-list `base_rates`
or `adjustments` key behaves exactly like the empty list in the source,
so both are modelled by `[]`. -/
structure RateMetadata where
  base_rates : List RateEntry
  adjustments : List RateAdjustment
deriving Repr, DecidableEq

/-- Substring test, as the Python `in` operator on strings. -/
def strContains (s sub : String) : Bool :=
  (s.splitOn sub).length > 1

/-- Embedding of `ScoringEngine._evaluate_adjustment_condition`.  The
source lower-cases and strips the condition, tests for the variable
name by substring, extracts the integer threshold after the operator
with `split`, and returns `False` on any parse failure or absent
variable. -/
def evaluate_adjustment_condition (condition : String)
    (equipment_age_years fico_score : Option ℤ) : Bool :=
  if condition = "" then false
  else
    let c := (condition.trim).toLower
    if strContains c "equipment_age" then
      match equipment_age_years with
      | none => false
      | some age =>
        if strContains c ">" then
          if strContains c ">=" then
            match (((c.splitOn ">=").getD 1 "").trim).toInt? with
            | some t => age ≥ t
            | none => false
          else
            match (((c.splitOn ">").getD 1 "").trim).toInt? with
            | some t => age > t
            | none => false
        else if strContains c "<" then
          if strContains c "<=" then
            match (((c.splitOn "<=").getD 1 "").trim).toInt? with
            | some t => age ≤ t
            | none => false
          else
            match (((c.splitOn "<").getD 1 "").trim).toInt? with
            | some t => age < t
            | none => false
        else false
    else if strContains c "fico" then
      match fico_score with
      | none => false
      | some fico =>
        if strContains c ">" then
          if strContains c ">=" then
            match (((c.splitOn ">=").getD 1 "").trim).toInt? with
            | some t => fico ≥ t
            | none => false
          else
            match (((c.splitOn ">").getD 1 "").trim).toInt? with
            | some t => fico > t
            | none => false
        else if strContains c "<" then
          if strContains c "<=" then
            match (((c.splitOn "<=").getD 1 "").trim).toInt? with
            | some t => fico ≤ t
            | none => false
          else
            match (((c.splitOn "<").getD 1 "").trim).toInt? with
            | some t => fico < t
            | none => false
        else false
    else false

/-- Embedding of `ScoringEngine._find_base_rate`: linear scan of the
`base_rates` list; a row whose `min_amount`, `max_amount` or `rate` is
missing is skipped; the first row whose amount range contains the loan
amount (inclusive at both ends) supplies the rate.  The source never
consults `min_term` or `max_term`. -/
def find_base_rate : List RateEntry → ℚ → Option ℚ
  | [], _ => none
  | e :: rest, loan_amount =>
    match e.min_amount, e.max_amount, e.rate with
    | some min_dec, some max_dec, some rate =>
      if min_dec ≤ loan_amount ∧ loan_amount ≤ max_dec then some rate
      else find_base_rate rest loan_amount
    | _, _, _ => find_base_rate rest loan_amount

/-- Sum of the deltas of the adjustments whose condition evaluates to
true, as the adjustment loop of `ScoringEngine.estimate_rate`. -/
def total_adjustment (adjustments : List RateAdjustment)
    (equipment_age_years fico_score : Option ℤ) : ℚ :=
  (adjustments.map (fun a =>
    if evaluate_adjustment_condition a.condition equipment_age_years fico_score
    then a.delta else 0)).sum

/-- Embedding of `ScoringEngine.estimate_rate`.  A `None`, empty or
non-dict `rate_metadata` is modelled by `none`; otherwise the base rate
is resolved from the rate table, the matching adjustment deltas are
added, and the result is clamped to be non-negative. -/
def estimate_rate (rate_metadata : Option RateMetadata) (loan_amount : ℚ)
    (equipment_age_years fico_score : Option ℤ) : Option ℚ :=
  match rate_metadata with
  | none => none
  | some md =>
    match find_base_rate md.base_rates loan_amount with
    | none => none
    | some base_rate =>
      some (pymax 0 (base_rate +
        total_adjustment md.adjustments equipment_age_years fico_score))

/-- Embedding of `ScoringEngine.calculate_approval_probability`: the
piecewise-linear heuristic over the fit score, short-circuited to 0
when a mandatory rule failed. -/
def calculate_approval_probability (fit_score : ℚ)
    (mandatory_rules_passed : Bool) : ℚ :=
  if ¬mandatory_rules_passed then 0
  else if fit_score ≥ 90 then pymin 100 (90 + (fit_score - 90))
  else if fit_score ≥ 80 then 70 + ((fit_score - 80) / 10) * 19
  else if fit_score ≥ 70 then 50 + ((fit_score - 70) / 10) * 19
  else if fit_score ≥ 60 then 30 + ((fit_score - 60) / 10) * 19
  else
    let score_in_range := if fit_score > 60 then (60 : ℚ) else fit_score
    pymax 10 (10 + (score_in_range / 60) * 19)

/-! ## Domain data model (`models/domain`, `core/enums.py`)

Legal structures and equipment conditions are string-valued enums in
the source; evaluators compare their `.value` strings, and the enum
round-trip `Condition(s)` performed during criteria normalization is
the identity on strings, so the embedding carries the canonical value
strings directly. -/

/-- Rule kinds of `RuleType` in `core/enums.py`. -/
inductive RuleType where
  | min_fico | min_paynet | credit_tier | max_credit_utilization
  | time_in_business | min_revenue | legal_structure
  | min_loan_amount | max_loan_amount | min_loan_term | max_loan_term
  | min_down_payment | max_ltv
  | equipment_type | equipment_age | equipment_condition
  | excluded_states | excluded_industries | allowed_states | allowed_industries
  | bankruptcy_history | homeowner_required | us_citizen_required
  | custom
deriving Repr, DecidableEq

/-- Equipment condition enum of `core/enums.py`. -/
inductive Condition where
  | new | used | refurbished | certified_pre_owned
deriving Repr, DecidableEq

/-- Canonical string value of a `Condition`, as the Python enum `.value`. -/
def Condition.value : Condition → String
  | .new => "New"
  | .used => "Used"
  | .refurbished => "Refurbished"
  | .certified_pre_owned => "Certified Pre-Owned"

/-- Business entity; `legal_structure` carries the canonical enum value
string that the evaluators compare. -/
structure Business where
  industry : String
  legal_structure : String
  established_date : PyDate
  annual_revenue : Option ℚ
  state : String
deriving Repr, DecidableEq

/-- Personal guarantor entity. -/
structure PersonalGuarantor where
  fico_score : Option ℤ
  paynet_score : Option ℤ
  credit_utilization_percentage : Option ℚ
  is_homeowner : Bool
  is_us_citizen : Bool
deriving Repr, DecidableEq

/-- Equipment entity. -/
structure Equipment where
  equipment_type : String
  year_manufactured : Option ℤ
  condition : Condition
  cost : ℚ
deriving Repr, DecidableEq

/-- Age of the equipment in years, as the `Equipment.age_years` property:
`if self.year_manufactured:` is a truthiness test, so a year of 0 also
yields `None`; the current year is read from the clock. -/
def Equipment.age_years (e : Equipment) (today : PyDate) : Option ℤ :=
  match e.year_manufactured with
  | some y => if y = 0 then none else some (today.year - y)
  | none => none

/-- Loan application with its three owned entities eagerly loaded. -/
structure LoanApplication where
  requested_amount : ℚ
  requested_term_months : ℤ
  down_payment_percentage : Option ℚ
  business : Business
  guarantor : PersonalGuarantor
  equipment : Equipment
deriving Repr, DecidableEq

/-- Open criteria mapping of a policy rule, as a record of the keys the
evaluators extract; a missing key is `none`. -/
structure Criteria where
  min_score : Option ℤ := none
  min_fico : Option ℤ := none
  min_paynet : Option ℤ := none
  tier_name : Option String := none
  max_percentage : Option ℚ := none
  min_years : Option ℤ := none
  min_months : Option ℤ := none
  min_amount : Option ℚ := none
  max_amount : Option ℚ := none
  max_months : Option ℤ := none
  min_percentage : Option ℚ := none
  allowed_structures : Option (List String) := none
  max_age_years : Option ℤ := none
  allowed_types : Option (List String) := none
  excluded_types : Option (List String) := none
  allowed_conditions : Option (List String) := none
  excluded_conditions : Option (List String) := none
  states : Option (List String) := none
  industries : Option (List String) := none
deriving Repr, DecidableEq

/-- Policy rule row. -/
structure PolicyRule where
  id : ℕ
  rule_type : RuleType
  rule_name : String
  criteria : Criteria
  weight : ℚ
  is_mandatory : Bool
  active : Bool
deriving Repr, DecidableEq

/-- Program eligibility conditions JSONB, as a record of the recognized
keys; unknown keys are ignored by the source and are not modelled. -/
structure EligibilityConditions where
  requires_paynet : Option Bool := none
  legal_structure : Option (List String) := none
  industry : Option (List String) := none
  min_revenue : Option ℚ := none
  homeowner_required : Option Bool := none
  us_citizen_required : Option Bool := none
deriving Repr, DecidableEq

/-- Policy program row with its rules eagerly loaded; `none` for
`eligibility_conditions` covers both the SQL `NULL` and the empty or
non-dict mapping, all of which make `_check_program_eligibility`
succeed immediately. -/
structure PolicyProgram where
  id : ℕ
  program_name : String
  eligibility_conditions : Option EligibilityConditions
  rate_metadata : Option RateMetadata
  min_fit_score : Option ℚ
  active : Bool
  rules : List PolicyRule
deriving Repr, DecidableEq

/-- Lender row with its programs eagerly loaded. -/
structure Lender where
  id : ℕ
  name : String
  active : Bool
  min_loan_amount : Option ℚ
  max_loan_amount : Option ℚ
  excluded_states : Option (List String)
  excluded_industries : Option (List String)
  programs : List PolicyProgram
deriving Repr, DecidableEq, Inhabited

/-! ## Rule engine foundation (`rule_engine/base.py`)

Evidence mappings carry heterogeneous JSON values; `EvVal` covers the
shapes the evaluators actually store.  Numeric renderings inside reason
strings use `toString` in place of Python string formatting; no claim
depends on the exact formatting of numbers inside reasons. -/

/-- Value stored in an evidence mapping. -/
inductive EvVal where
  | nullV
  | boolV (v : Bool)
  | intV (v : ℤ)
  | ratV (v : ℚ)
  | strV (v : String)
  | listV (vs : List String)
  | intMapV (vs : List (String × Option ℤ))
deriving Repr, DecidableEq

/-- Result of evaluating a single rule, as the `EvaluationResult`
dataclass of `base.py`. -/
structure EvaluationResult where
  passed : Bool
  score : ℚ
  reason : String
  evidence : List (String × EvVal)
  weight : ℚ
  is_mandatory : Bool
deriving Repr, DecidableEq

/-- Evaluation context handed to every evaluator. -/
structure EvaluationContext where
  application : LoanApplication
  business : Business
  guarantor : PersonalGuarantor
  equipment : Equipment
  program : PolicyProgram
  rule : PolicyRule
deriving Repr, DecidableEq

/-- Embedding of `RuleEvaluator._calculate_score`: full pass gives
`Decimal("100.00") * weight`; a failed rule earns
`Decimal("100.00") * weight * partial_credit` when the fraction is
positive, else 0.  Each `Decimal` multiplication rounds its exact
product to the context precision of 28 significant digits. -/
def calculate_score (passed : Bool) (weight : ℚ) (credit_fraction : ℚ) : ℚ :=
  if passed then roundDecimal28 (100 * weight)
  else if credit_fraction > 0 then
    roundDecimal28 (roundDecimal28 (100 * weight) * credit_fraction)
  else 0

/-! ## Credit evaluator (`evaluators/credit_evaluator.py`) -/

/-- Embedding of `CreditEvaluator._evaluate_min_fico`.  The near-miss
fraction is `Decimal(str(max(0, 1 - score_gap/50)))`, computed in
binary floating point — see `float_credit_fraction`. -/
def evaluate_min_fico (ctx : EvaluationContext) : Except String EvaluationResult :=
  let rule := ctx.rule
  let guarantor := ctx.guarantor
  match rule.criteria.min_score with
  | none => .error "Required criteria field min_score is missing"
  | some min_score =>
    match guarantor.fico_score with
    | none =>
      .ok { passed := false, score := 0,
            reason := "FICO score is required (minimum: " ++ toString min_score ++ ")",
            evidence := [("actual", .nullV), ("required", .intV min_score)],
            weight := rule.weight, is_mandatory := rule.is_mandatory }
    | some actual_score =>
      let passed := actual_score ≥ min_score
      let score_gap := min_score - actual_score
      let score :=
        if passed then calculate_score true rule.weight 0
        else if score_gap ≤ 50 then
          calculate_score false rule.weight (float_credit_fraction score_gap 50)
        else 0
      let reason :=
        if passed then
          "FICO score " ++ toString actual_score ++
            " meets minimum requirement of " ++ toString min_score
        else
          "FICO score " ++ toString actual_score ++
            " is below minimum requirement of " ++ toString min_score ++
            " (gap: " ++ toString score_gap ++ ")"
      .ok { passed := passed, score := score, reason := reason,
            evidence := [("actual", .intV actual_score),
                         ("required", .intV min_score),
                         ("gap", .intV (if passed then 0 else min_score - actual_score))],
            weight := rule.weight, is_mandatory := rule.is_mandatory }

/-- Embedding of `CreditEvaluator._evaluate_min_paynet`; identical to
the FICO variant with a 20-point near-miss band. -/
def evaluate_min_paynet (ctx : EvaluationContext) : Except String EvaluationResult :=
  let rule := ctx.rule
  let guarantor := ctx.guarantor
  match rule.criteria.min_score with
  | none => .error "Required criteria field min_score is missing"
  | some min_score =>
    match guarantor.paynet_score with
    | none =>
      .ok { passed := false, score := 0,
            reason := "PayNet score is required (minimum: " ++ toString min_score ++ ")",
            evidence := [("actual", .nullV), ("required", .intV min_score)],
            weight := rule.weight, is_mandatory := rule.is_mandatory }
    | some actual_score =>
      let passed := actual_score ≥ min_score
      let score_gap := min_score - actual_score
      let score :=
        if passed then calculate_score true rule.weight 0
        else if score_gap ≤ 20 then
          calculate_score false rule.weight (float_credit_fraction score_gap 20)
        else 0
      let reason :=
        if passed then
          "PayNet score " ++ toString actual_score ++
            " meets minimum requirement of " ++ toString min_score
        else
          "PayNet score " ++ toString actual_score ++
            " is below minimum requirement of " ++ toString min_score ++
            " (gap: " ++ toString score_gap ++ ")"
      .ok { passed := passed, score := score, reason := reason,
            evidence := [("actual", .intV actual_score),
                         ("required", .intV min_score),
                         ("gap", .intV (if passed then 0 else min_score - actual_score))],
            weight := rule.weight, is_mandatory := rule.is_mandatory }

/-- Embedding of `CreditEvaluator._evaluate_credit_tier`: every floor
specified by the criteria must be met; a missing required score fails;
no partial credit. -/
def evaluate_credit_tier (ctx : EvaluationContext) : Except String EvaluationResult :=
  let rule := ctx.rule
  let guarantor := ctx.guarantor
  let min_fico := rule.criteria.min_fico
  let min_paynet := rule.criteria.min_paynet
  let tier_name := (rule.criteria.tier_name).getD "Unknown"
  let ficoChecks : List String × List String :=
    match min_fico with
    | none => ([], [])
    | some mf =>
      match guarantor.fico_score with
      | none => ([], ["FICO score missing"])
      | some f =>
        if f ≥ mf then (["FICO " ++ toString f ++ " >= " ++ toString mf], [])
        else ([], ["FICO " ++ toString f ++ " < " ++ toString mf])
  let paynetChecks : List String × List String :=
    match min_paynet with
    | none => ([], [])
    | some mp =>
      match guarantor.paynet_score with
      | none => ([], ["PayNet score missing"])
      | some p =>
        if p ≥ mp then (["PayNet " ++ toString p ++ " >= " ++ toString mp], [])
        else ([], ["PayNet " ++ toString p ++ " < " ++ toString mp])
  let passed_checks := ficoChecks.1 ++ paynetChecks.1
  let failed_checks := ficoChecks.2 ++ paynetChecks.2
  let passed := failed_checks.length = 0
  let score := if passed then calculate_score true rule.weight 0 else 0
  let reason :=
    if passed then
      tier_name ++ " credit tier requirements met: " ++ String.intercalate ", " passed_checks
    else
      tier_name ++ " credit tier not met: " ++ String.intercalate ", " failed_checks
  .ok { passed := passed, score := score, reason := reason,
        evidence := [("tier_name", .strV tier_name),
                     ("required", .intMapV [("min_fico", min_fico), ("min_paynet", min_paynet)]),
                     ("actual", .intMapV [("fico", guarantor.fico_score), ("paynet", guarantor.paynet_score)]),
                     ("passed_checks", .listV passed_checks),
                     ("failed_checks", .listV failed_checks)],
        weight := rule.weight, is_mandatory := rule.is_mandatory }

/-- Embedding of `CreditEvaluator._evaluate_max_credit_utilization`:
absent utilization passes a non-mandatory rule and fails a mandatory
one; no partial credit. -/
def evaluate_max_credit_utilization (ctx : EvaluationContext) :
    Except String EvaluationResult :=
  let rule := ctx.rule
  let guarantor := ctx.guarantor
  match rule.criteria.max_percentage with
  | none => .error "Required criteria field max_percentage is missing"
  | some max_percentage =>
    match guarantor.credit_utilization_percentage with
    | none =>
      if ¬rule.is_mandatory then
        .ok { passed := true, score := calculate_score true rule.weight 0,
              reason := "Credit utilization not provided, assuming acceptable",
              evidence := [("actual", .nullV), ("required", .ratV max_percentage)],
              weight := rule.weight, is_mandatory := rule.is_mandatory }
      else
        .ok { passed := false, score := 0,
              reason := "Credit utilization is required (maximum: " ++
                toString max_percentage ++ "%)",
              evidence := [("actual", .nullV), ("required", .ratV max_percentage)],
              weight := rule.weight, is_mandatory := rule.is_mandatory }
    | some actual_percentage =>
      let passed := actual_percentage ≤ max_percentage
      let score := if passed then calculate_score true rule.weight 0 else 0
      let reason :=
        if passed then
          "Credit utilization " ++ toString actual_percentage ++
            "% is within maximum of " ++ toString max_percentage ++ "%"
        else
          "Credit utilization " ++ toString actual_percentage ++
            "% exceeds maximum of " ++ toString max_percentage ++ "%"
      .ok { passed := passed, score := score, reason := reason,
            evidence := [("actual", .ratV actual_percentage),
                         ("required", .ratV max_percentage),
                         ("excess", .ratV (if passed then 0 else actual_percentage - max_percentage))],
            weight := rule.weight, is_mandatory := rule.is_mandatory }

/-- Embedding of `CreditEvaluator.evaluate`: dispatch on the credit rule
kinds, raising on any other kind. -/
def credit_evaluate (ctx : EvaluationContext) : Except String EvaluationResult :=
  match ctx.rule.rule_type with
  | .min_fico => evaluate_min_fico ctx
  | .min_paynet => evaluate_min_paynet ctx
  | .credit_tier => evaluate_credit_tier ctx
  | .max_credit_utilization => evaluate_max_credit_utilization ctx
  | _ => .error "CreditEvaluator cannot handle rule type"

/-! ## Business evaluator (`evaluators/business_evaluator.py`) -/

/-- Embedding of `BusinessEvaluator._evaluate_time_in_business`.  The
source reads `date.today()` here; the months in business are computed
from year and month components only. -/
def evaluate_time_in_business (today : PyDate) (ctx : EvaluationContext) :
    Except String EvaluationResult :=
  let rule := ctx.rule
  let business := ctx.business
  let go : ℤ → Except String EvaluationResult := fun required_months =>
    let established_date := business.established_date
    let actual_months :=
      (today.year - established_date.year) * 12 + today.month - established_date.month
    let passed := actual_months ≥ required_months
    let score :=
      if passed then calculate_score true rule.weight 0
      else if required_months - actual_months ≤ 6 then
        calculate_score false rule.weight
          (float_credit_fraction (required_months - actual_months) 6)
      else 0
    let reason :=
      if passed then
        "Business has been operating for " ++ toString actual_months ++
          " months (requirement: " ++ toString required_months ++ " months)"
      else
        "Business has only been operating for " ++ toString actual_months ++
          " months (requirement: " ++ toString required_months ++
          " months, gap: " ++ toString (required_months - actual_months) ++ " months)"
    .ok { passed := passed, score := score, reason := reason,
          evidence := [("actual_months", .intV actual_months),
                       ("required_months", .intV required_months),
                       ("gap_months", .intV (if passed then 0 else required_months - actual_months))],
          weight := rule.weight, is_mandatory := rule.is_mandatory }
  match rule.criteria.min_years, rule.criteria.min_months with
  | none, none =>
    .error "TIME_IN_BUSINESS rule requires either min_years or min_months"
  | some min_years, _ => go (min_years * 12)
  | none, some min_months => go min_months

/-- Embedding of `BusinessEvaluator._evaluate_min_revenue`.  All the
gap arithmetic here is `Decimal` arithmetic, each operation rounded to
the 28-significant-digit context; `Decimal(str(...))` applied to the
resulting `Decimal` fraction is the identity.  When the requirement is
not met the source divides by `min_amount`; a zero requirement
therefore raises a `DivisionByZero` error that the engine converts to
a synthetic failed result. -/
def evaluate_min_revenue (ctx : EvaluationContext) : Except String EvaluationResult :=
  let rule := ctx.rule
  let business := ctx.business
  match rule.criteria.min_amount with
  | none => .error "Required criteria field min_amount is missing"
  | some min_amount =>
    match business.annual_revenue with
    | none =>
      .ok { passed := false, score := 0,
            reason := "Annual revenue is required (minimum: $" ++ toString min_amount ++ ")",
            evidence := [("actual", .nullV), ("required", .ratV min_amount)],
            weight := rule.weight, is_mandatory := rule.is_mandatory }
    | some actual_revenue =>
      if actual_revenue ≥ min_amount then
        .ok { passed := true, score := calculate_score true rule.weight 0,
              reason := "Annual revenue $" ++ toString actual_revenue ++
                " meets minimum requirement of $" ++ toString min_amount,
              evidence := [("actual", .ratV actual_revenue),
                           ("required", .ratV min_amount), ("gap", .ratV 0)],
              weight := rule.weight, is_mandatory := rule.is_mandatory }
      else if min_amount = 0 then
        .error "division by zero"
      else
        let revenue_gap := roundDecimal28 (min_amount - actual_revenue)
        let percentage_gap :=
          roundDecimal28 (roundDecimal28 (revenue_gap / min_amount) * 100)
        let score :=
          if percentage_gap ≤ 20 then
            calculate_score false rule.weight
              (pymax 0 (roundDecimal28 (1 - roundDecimal28 (percentage_gap / 20))))
          else 0
        .ok { passed := false, score := score,
              reason := "Annual revenue $" ++ toString actual_revenue ++
                " is below minimum requirement of $" ++ toString min_amount ++
                " (gap: $" ++ toString revenue_gap ++ ")",
              evidence := [("actual", .ratV actual_revenue),
                           ("required", .ratV min_amount),
                           ("gap", .ratV (min_amount - actual_revenue))],
              weight := rule.weight, is_mandatory := rule.is_mandatory }

/-- Embedding of `BusinessEvaluator._evaluate_legal_structure`.  The
enum normalization `LegalStructure(s)` performed by the source is the
identity on the strings it keeps, so membership is tested directly. -/
def evaluate_legal_structure (ctx : EvaluationContext) : Except String EvaluationResult :=
  let rule := ctx.rule
  let business := ctx.business
  match rule.criteria.allowed_structures with
  | none => .error "Required criteria field allowed_structures is missing"
  | some allowed_structures =>
    let actual_structure := business.legal_structure
    let passed := allowed_structures.contains actual_structure
    let score := if passed then calculate_score true rule.weight 0 else 0
    let reason :=
      if passed then "Business structure " ++ actual_structure ++ " is allowed"
      else
        "Business structure " ++ actual_structure ++
          " is not allowed. Allowed: " ++ String.intercalate ", " allowed_structures
    .ok { passed := passed, score := score, reason := reason,
          evidence := [("actual", .strV actual_structure),
                       ("allowed", .listV allowed_structures)],
          weight := rule.weight, is_mandatory := rule.is_mandatory }

/-- Embedding of `BusinessEvaluator.evaluate`. -/
def business_evaluate (today : PyDate) (ctx : EvaluationContext) :
    Except String EvaluationResult :=
  match ctx.rule.rule_type with
  | .time_in_business => evaluate_time_in_business today ctx
  | .min_revenue => evaluate_min_revenue ctx
  | .legal_structure => evaluate_legal_structure ctx
  | _ => .error "BusinessEvaluator cannot handle rule type"

/-! ## Loan evaluator (`evaluators/loan_evaluator.py`) -/

/-- Embedding of `LoanEvaluator._evaluate_min_loan_amount`. -/
def evaluate_min_loan_amount (ctx : EvaluationContext) : Except String EvaluationResult :=
  let rule := ctx.rule
  let application := ctx.application
  match rule.criteria.min_amount with
  | none => .error "Required criteria field min_amount is missing"
  | some min_amount =>
    let requested_amount := application.requested_amount
    let passed := requested_amount ≥ min_amount
    let score := if passed then calculate_score true rule.weight 0 else 0
    let reason :=
      if passed then
        "Loan amount $" ++ toString requested_amount ++
          " meets minimum of $" ++ toString min_amount
      else
        "Loan amount $" ++ toString requested_amount ++
          " is below minimum of $" ++ toString min_amount ++
          " (gap: $" ++ toString (min_amount - requested_amount) ++ ")"
    .ok { passed := passed, score := score, reason := reason,
          evidence := [("actual", .ratV requested_amount),
                       ("required", .ratV min_amount),
                       ("gap", .ratV (if passed then 0 else min_amount - requested_amount))],
          weight := rule.weight, is_mandatory := rule.is_mandatory }

/-- Embedding of `LoanEvaluator._evaluate_max_loan_amount`. -/
def evaluate_max_loan_amount (ctx : EvaluationContext) : Except String EvaluationResult :=
  let rule := ctx.rule
  let application := ctx.application
  match rule.criteria.max_amount with
  | none => .error "Required criteria field max_amount is missing"
  | some max_amount =>
    let requested_amount := application.requested_amount
    let passed := requested_amount ≤ max_amount
    let score := if passed then calculate_score true rule.weight 0 else 0
    let reason :=
      if passed then
        "Loan amount $" ++ toString requested_amount ++
          " is within maximum of $" ++ toString max_amount
      else
        "Loan amount $" ++ toString requested_amount ++
          " exceeds maximum of $" ++ toString max_amount ++
          " (excess: $" ++ toString (requested_amount - max_amount) ++ ")"
    .ok { passed := passed, score := score, reason := reason,
          evidence := [("actual", .ratV requested_amount),
                       ("required", .ratV max_amount),
                       ("excess", .ratV (if passed then 0 else requested_amount - max_amount))],
          weight := rule.weight, is_mandatory := rule.is_mandatory }

/-- Embedding of `LoanEvaluator._evaluate_min_loan_term`. -/
def evaluate_min_loan_term (ctx : EvaluationContext) : Except String EvaluationResult :=
  let rule := ctx.rule
  let application := ctx.application
  match rule.criteria.min_months with
  | none => .error "Required criteria field min_months is missing"
  | some min_months =>
    let requested_term := application.requested_term_months
    let passed := requested_term ≥ min_months
    let score := if passed then calculate_score true rule.weight 0 else 0
    let reason :=
      if passed then
        "Loan term " ++ toString requested_term ++
          " months meets minimum of " ++ toString min_months ++ " months"
      else
        "Loan term " ++ toString requested_term ++
          " months is below minimum of " ++ toString min_months ++
          " months (gap: " ++ toString (min_months - requested_term) ++ " months)"
    .ok { passed := passed, score := score, reason := reason,
          evidence := [("actual", .intV requested_term),
                       ("required", .intV min_months),
                       ("gap", .intV (if passed then 0 else min_months - requested_term))],
          weight := rule.weight, is_mandatory := rule.is_mandatory }

/-- Embedding of `LoanEvaluator._evaluate_max_loan_term`. -/
def evaluate_max_loan_term (ctx : EvaluationContext) : Except String EvaluationResult :=
  let rule := ctx.rule
  let application := ctx.application
  match rule.criteria.max_months with
  | none => .error "Required criteria field max_months is missing"
  | some max_months =>
    let requested_term := application.requested_term_months
    let passed := requested_term ≤ max_months
    let score := if passed then calculate_score true rule.weight 0 else 0
    let reason :=
      if passed then
        "Loan term " ++ toString requested_term ++
          " months is within maximum of " ++ toString max_months ++ " months"
      else
        "Loan term " ++ toString requested_term ++
          " months exceeds maximum of " ++ toString max_months ++
          " months (excess: " ++ toString (requested_term - max_months) ++ " months)"
    .ok { passed := passed, score := score, reason := reason,
          evidence := [("actual", .intV requested_term),
                       ("required", .intV max_months),
                       ("excess", .intV (if passed then 0 else requested_term - max_months))],
          weight := rule.weight, is_mandatory := rule.is_mandatory }

/-- Embedding of `LoanEvaluator._evaluate_min_down_payment`: a missing
down-payment percentage is treated as 0. -/
def evaluate_min_down_payment (ctx : EvaluationContext) : Except String EvaluationResult :=
  let rule := ctx.rule
  let application := ctx.application
  match rule.criteria.min_percentage with
  | none => .error "Required criteria field min_percentage is missing"
  | some min_percentage =>
    let actual_percentage := (application.down_payment_percentage).getD 0
    let passed := actual_percentage ≥ min_percentage
    let score := if passed then calculate_score true rule.weight 0 else 0
    let reason :=
      if passed then
        "Down payment " ++ toString actual_percentage ++
          "% meets minimum of " ++ toString min_percentage ++ "%"
      else
        "Down payment " ++ toString actual_percentage ++
          "% is below minimum of " ++ toString min_percentage ++
          "% (gap: " ++ toString (min_percentage - actual_percentage) ++ "%)"
    .ok { passed := passed, score := score, reason := reason,
          evidence := [("actual", .ratV actual_percentage),
                       ("required", .ratV min_percentage),
                       ("gap", .ratV (if passed then 0 else min_percentage - actual_percentage))],
          weight := rule.weight, is_mandatory := rule.is_mandatory }

/-- Embedding of `LoanEvaluator._evaluate_max_ltv`: zero equipment cost
fails outright; otherwise LTV is `requested / cost × 100`. -/
def evaluate_max_ltv (ctx : EvaluationContext) : Except String EvaluationResult :=
  let rule := ctx.rule
  let application := ctx.application
  let equipment := ctx.equipment
  match rule.criteria.max_percentage with
  | none => .error "Required criteria field max_percentage is missing"
  | some max_ltv =>
    let equipment_cost := equipment.cost
    let loan_amount := application.requested_amount
    if equipment_cost = 0 then
      .ok { passed := false, score := 0,
            reason := "Equipment cost cannot be zero for LTV calculation",
            evidence := [("actual", .nullV), ("required", .ratV max_ltv)],
            weight := rule.weight, is_mandatory := rule.is_mandatory }
    else
      let actual_ltv := (loan_amount / equipment_cost) * 100
      let passed := actual_ltv ≤ max_ltv
      let score := if passed then calculate_score true rule.weight 0 else 0
      let reason :=
        if passed then
          "LTV " ++ toString actual_ltv ++ "% is within maximum of " ++
            toString max_ltv ++ "%"
        else
          "LTV " ++ toString actual_ltv ++ "% exceeds maximum of " ++
            toString max_ltv ++ "% (excess: " ++ toString (actual_ltv - max_ltv) ++ "%)"
      .ok { passed := passed, score := score, reason := reason,
            evidence := [("actual", .ratV actual_ltv),
                         ("required", .ratV max_ltv),
                         ("loan_amount", .ratV loan_amount),
                         ("equipment_cost", .ratV equipment_cost),
                         ("excess", .ratV (if passed then 0 else actual_ltv - max_ltv))],
            weight := rule.weight, is_mandatory := rule.is_mandatory }

/-- Embedding of `LoanEvaluator.evaluate`. -/
def loan_evaluate (ctx : EvaluationContext) : Except String EvaluationResult :=
  match ctx.rule.rule_type with
  | .min_loan_amount => evaluate_min_loan_amount ctx
  | .max_loan_amount => evaluate_max_loan_amount ctx
  | .min_loan_term => evaluate_min_loan_term ctx
  | .max_loan_term => evaluate_max_loan_term ctx
  | .min_down_payment => evaluate_min_down_payment ctx
  | .max_ltv => evaluate_max_ltv ctx
  | _ => .error "LoanEvaluator cannot handle rule type"

/-! ## Equipment evaluator (`evaluators/equipment_evaluator.py`) -/

/-- Embedding of `EquipmentEvaluator._evaluate_equipment_type`:
exclusions win over allowances; comparisons are case-insensitive; with
only exclusions configured and none matching, the rule passes. -/
def evaluate_equipment_type (ctx : EvaluationContext) : Except String EvaluationResult :=
  let rule := ctx.rule
  let equipment := ctx.equipment
  let allowed_types := rule.criteria.allowed_types
  let excluded_types := rule.criteria.excluded_types
  if allowed_types.isNone ∧ excluded_types.isNone then
    .error "EQUIPMENT_TYPE rule requires either allowed_types or excluded_types"
  else
    let equipment_type := equipment.equipment_type
    let excludedHit :=
      match excluded_types with
      | none => false
      | some ex => (ex.map String.toLower).contains equipment_type.toLower
    if excludedHit then
      .ok { passed := false, score := 0,
            reason := "Equipment type " ++ equipment_type ++ " is excluded",
            evidence := [("actual", .strV equipment_type),
                         ("excluded_types", .listV (excluded_types.getD []))],
            weight := rule.weight, is_mandatory := rule.is_mandatory }
    else
      match allowed_types with
      | some allowed =>
        let passed := (allowed.map String.toLower).contains equipment_type.toLower
        let score := if passed then calculate_score true rule.weight 0 else 0
        let reason :=
          if passed then "Equipment type " ++ equipment_type ++ " is allowed"
          else
            "Equipment type " ++ equipment_type ++
              " is not in allowed list: " ++ String.intercalate ", " allowed
        .ok { passed := passed, score := score, reason := reason,
              evidence := [("actual", .strV equipment_type),
                           ("allowed_types", .listV allowed)],
              weight := rule.weight, is_mandatory := rule.is_mandatory }
      | none =>
        .ok { passed := true, score := calculate_score true rule.weight 0,
              reason := "Equipment type " ++ equipment_type ++ " is not excluded",
              evidence := [("actual", .strV equipment_type),
                           ("excluded_types", .listV (excluded_types.getD []))],
              weight := rule.weight, is_mandatory := rule.is_mandatory }

/-- Embedding of `EquipmentEvaluator._evaluate_equipment_age`.  The
source reads `datetime.now().year` here.  A missing manufacture year
yields age 0 for new equipment and an outright failure otherwise. -/
def evaluate_equipment_age (today : PyDate) (ctx : EvaluationContext) :
    Except String EvaluationResult :=
  let rule := ctx.rule
  let equipment := ctx.equipment
  match rule.criteria.max_age_years with
  | none => .error "Required criteria field max_age_years is missing"
  | some max_age_years =>
    let ageResult : Option ℤ :=
      match equipment.year_manufactured with
      | none => if equipment.condition = Condition.new then some 0 else none
      | some y => some (today.year - y)
    match ageResult with
    | none =>
      .ok { passed := false, score := 0,
            reason := "Equipment year manufactured is required for age verification (maximum: " ++
              toString max_age_years ++ " years)",
            evidence := [("actual", .nullV), ("required", .intV max_age_years)],
            weight := rule.weight, is_mandatory := rule.is_mandatory }
    | some actual_age =>
      let passed := actual_age ≤ max_age_years
      let age_excess := actual_age - max_age_years
      let score :=
        if passed then calculate_score true rule.weight 0
        else if age_excess ≤ 2 then
          calculate_score false rule.weight (float_credit_fraction age_excess 2)
        else 0
      let reason :=
        if passed then
          "Equipment age " ++ toString actual_age ++
            " years is within maximum of " ++ toString max_age_years ++ " years"
        else
          "Equipment age " ++ toString actual_age ++
            " years exceeds maximum of " ++ toString max_age_years ++
            " years (excess: " ++ toString age_excess ++ " years)"
      .ok { passed := passed, score := score, reason := reason,
            evidence := [("actual", .intV actual_age),
                         ("required", .intV max_age_years),
                         ("excess", .intV (if passed then 0 else actual_age - max_age_years))],
            weight := rule.weight, is_mandatory := rule.is_mandatory }

/-- Embedding of `EquipmentEvaluator._evaluate_equipment_condition`.
The `Condition(s)` enum round-trip performed by the source is the
identity on strings, so membership is tested directly. -/
def evaluate_equipment_condition (ctx : EvaluationContext) :
    Except String EvaluationResult :=
  let rule := ctx.rule
  let equipment := ctx.equipment
  let allowed_conditions := rule.criteria.allowed_conditions
  let excluded_conditions := rule.criteria.excluded_conditions
  if allowed_conditions.isNone ∧ excluded_conditions.isNone then
    .error "EQUIPMENT_CONDITION rule requires either allowed_conditions or excluded_conditions"
  else
    let equipment_condition := equipment.condition.value
    let excludedHit :=
      match excluded_conditions with
      | none => false
      | some ex => ex.contains equipment_condition
    if excludedHit then
      .ok { passed := false, score := 0,
            reason := "Equipment condition " ++ equipment_condition ++ " is excluded",
            evidence := [("actual", .strV equipment_condition),
                         ("excluded_conditions", .listV (excluded_conditions.getD []))],
            weight := rule.weight, is_mandatory := rule.is_mandatory }
    else
      match allowed_conditions with
      | some allowed =>
        let passed := allowed.contains equipment_condition
        let score := if passed then calculate_score true rule.weight 0 else 0
        let reason :=
          if passed then "Equipment condition " ++ equipment_condition ++ " is allowed"
          else
            "Equipment condition " ++ equipment_condition ++
              " is not in allowed list: " ++ String.intercalate ", " allowed
        .ok { passed := passed, score := score, reason := reason,
              evidence := [("actual", .strV equipment_condition),
                           ("allowed_conditions", .listV allowed)],
              weight := rule.weight, is_mandatory := rule.is_mandatory }
      | none =>
        .ok { passed := true, score := calculate_score true rule.weight 0,
              reason := "Equipment condition " ++ equipment_condition ++ " is not excluded",
              evidence := [("actual", .strV equipment_condition),
                           ("excluded_conditions", .listV (excluded_conditions.getD []))],
              weight := rule.weight, is_mandatory := rule.is_mandatory }

/-- Embedding of `EquipmentEvaluator.evaluate`. -/
def equipment_evaluate (today : PyDate) (ctx : EvaluationContext) :
    Except String EvaluationResult :=
  match ctx.rule.rule_type with
  | .equipment_type => evaluate_equipment_type ctx
  | .equipment_age => evaluate_equipment_age today ctx
  | .equipment_condition => evaluate_equipment_condition ctx
  | _ => .error "EquipmentEvaluator cannot handle rule type"

/-! ## Geographic evaluator (`evaluators/geographic_evaluator.py`) -/

/-- Embedding of `GeographicEvaluator._evaluate_excluded_states`:
passes when the upper-cased business state is not in the list. -/
def evaluate_excluded_states (ctx : EvaluationContext) : Except String EvaluationResult :=
  let rule := ctx.rule
  let business := ctx.business
  match rule.criteria.states with
  | none => .error "Required criteria field states is missing"
  | some excluded_states =>
    let normalized_excluded := excluded_states.map String.toUpper
    let business_state := business.state.toUpper
    let passed := ¬normalized_excluded.contains business_state
    let score := if passed then calculate_score true rule.weight 0 else 0
    let reason :=
      if passed then "Business state " ++ business_state ++ " is not excluded"
      else "Business state " ++ business_state ++ " is excluded by this program"
    .ok { passed := passed, score := score, reason := reason,
          evidence := [("actual", .strV business_state),
                       ("excluded_states", .listV normalized_excluded)],
          weight := rule.weight, is_mandatory := rule.is_mandatory }

/-- Embedding of `GeographicEvaluator._evaluate_excluded_industries`:
case-insensitive membership, pass when absent from the list. -/
def evaluate_excluded_industries (ctx : EvaluationContext) :
    Except String EvaluationResult :=
  let rule := ctx.rule
  let business := ctx.business
  match rule.criteria.industries with
  | none => .error "Required criteria field industries is missing"
  | some excluded_industries =>
    let normalized_excluded := excluded_industries.map String.toLower
    let business_industry := business.industry.toLower
    let passed := ¬normalized_excluded.contains business_industry
    let score := if passed then calculate_score true rule.weight 0 else 0
    let reason :=
      if passed then "Business industry " ++ business.industry ++ " is not excluded"
      else "Business industry " ++ business.industry ++ " is excluded by this program"
    .ok { passed := passed, score := score, reason := reason,
          evidence := [("actual", .strV business.industry),
                       ("excluded_industries", .listV excluded_industries)],
          weight := rule.weight, is_mandatory := rule.is_mandatory }

/-- Embedding of `GeographicEvaluator._evaluate_allowed_states`. -/
def evaluate_allowed_states (ctx : EvaluationContext) : Except String EvaluationResult :=
  let rule := ctx.rule
  let business := ctx.business
  match rule.criteria.states with
  | none => .error "Required criteria field states is missing"
  | some allowed_states =>
    let normalized_allowed := allowed_states.map String.toUpper
    let business_state := business.state.toUpper
    let passed := normalized_allowed.contains business_state
    let score := if passed then calculate_score true rule.weight 0 else 0
    let reason :=
      if passed then "Business state " ++ business_state ++ " is in allowed list"
      else
        "Business state " ++ business_state ++
          " is not in allowed list: " ++ String.intercalate ", " normalized_allowed
    .ok { passed := passed, score := score, reason := reason,
          evidence := [("actual", .strV business_state),
                       ("allowed_states", .listV normalized_allowed)],
          weight := rule.weight, is_mandatory := rule.is_mandatory }

/-- Embedding of `GeographicEvaluator._evaluate_allowed_industries`. -/
def evaluate_allowed_industries (ctx : EvaluationContext) :
    Except String EvaluationResult :=
  let rule := ctx.rule
  let business := ctx.business
  match rule.criteria.industries with
  | none => .error "Required criteria field industries is missing"
  | some allowed_industries =>
    let normalized_allowed := allowed_industries.map String.toLower
    let business_industry := business.industry.toLower
    let passed := normalized_allowed.contains business_industry
    let score := if passed then calculate_score true rule.weight 0 else 0
    let reason :=
      if passed then "Business industry " ++ business.industry ++ " is in allowed list"
      else
        "Business industry " ++ business.industry ++
          " is not in allowed list: " ++ String.intercalate ", " allowed_industries
    .ok { passed := passed, score := score, reason := reason,
          evidence := [("actual", .strV business.industry),
                       ("allowed_industries", .listV allowed_industries)],
          weight := rule.weight, is_mandatory := rule.is_mandatory }

/-- Embedding of `GeographicEvaluator.evaluate`. -/
def geographic_evaluate (ctx : EvaluationContext) : Except String EvaluationResult :=
  match ctx.rule.rule_type with
  | .excluded_states => evaluate_excluded_states ctx
  | .excluded_industries => evaluate_excluded_industries ctx
  | .allowed_states => evaluate_allowed_states ctx
  | .allowed_industries => evaluate_allowed_industries ctx
  | _ => .error "GeographicEvaluator cannot handle rule type"

/-! ## Rule engine (`rule_engine/engine.py`) -/

/-- Evaluator registry of `RuleEngine._register_default_evaluators`,
applied to a context: rule kinds with a registered family evaluator
dispatch to it; `bankruptcy_history`, `homeowner_required`,
`us_citizen_required` and `custom` have no registered evaluator and
yield `none`, which the engine skips. -/
def dispatch_evaluator (today : PyDate) (ctx : EvaluationContext) :
    Option (Except String EvaluationResult) :=
  match ctx.rule.rule_type with
  | .min_fico | .min_paynet | .credit_tier | .max_credit_utilization =>
    some (credit_evaluate ctx)
  | .time_in_business | .min_revenue | .legal_structure =>
    some (business_evaluate today ctx)
  | .min_loan_amount | .max_loan_amount | .min_loan_term | .max_loan_term
  | .min_down_payment | .max_ltv =>
    some (loan_evaluate ctx)
  | .equipment_type | .equipment_age | .equipment_condition =>
    some (equipment_evaluate today ctx)
  | .excluded_states | .excluded_industries | .allowed_states | .allowed_industries =>
    some (geographic_evaluate ctx)
  | .bankruptcy_history | .homeowner_required | .us_citizen_required | .custom =>
    none

/-- Rule kinds present in the default evaluator registry. -/
def has_registered_evaluator : RuleType → Bool
  | .bankruptcy_history | .homeowner_required | .us_citizen_required | .custom => false
  | _ => true

/-- Context assembled by the engine for one rule. -/
def mk_context (app : LoanApplication) (program : PolicyProgram)
    (rule : PolicyRule) : EvaluationContext :=
  { application := app, business := app.business, guarantor := app.guarantor,
    equipment := app.equipment, program := program, rule := rule }

/-- Synthetic failed result the engine substitutes when an evaluator
raises: reason `Evaluation error: <message>`, evidence `error` entry,
zero score, and the rule weight and mandatory flag preserved. -/
def synthetic_error_result (rule : PolicyRule) (msg : String) : EvaluationResult :=
  { passed := false, score := 0, reason := "Evaluation error: " ++ msg,
    evidence := [("error", .strV msg)],
    weight := rule.weight, is_mandatory := rule.is_mandatory }

/-- Loop state of the rule loop in `RuleEngine.evaluate_program`. -/
@[ext] structure EngineAcc where
  rule_results : List (PolicyRule × EvaluationResult)
  total_score : ℚ
  total_weight : ℚ
  rules_passed : ℕ
  rules_failed : ℕ
  all_mandatory_passed : Bool
deriving Repr, DecidableEq

/-- Body of the rule loop in `RuleEngine.evaluate_program`: skip rules
without a registered evaluator, accumulate the evaluator result, and on
an exception append the synthetic failed result while still adding the
rule weight to the total. -/
def engine_step (today : PyDate) (app : LoanApplication) (program : PolicyProgram)
    (acc : EngineAcc) (rule : PolicyRule) : EngineAcc :=
  match dispatch_evaluator today (mk_context app program rule) with
  | none => acc
  | some (Except.ok result) =>
    { rule_results := acc.rule_results ++ [(rule, result)]
      total_score := acc.total_score + result.score
      total_weight := acc.total_weight + result.weight
      rules_passed := if result.passed then acc.rules_passed + 1 else acc.rules_passed
      rules_failed := if result.passed then acc.rules_failed else acc.rules_failed + 1
      all_mandatory_passed :=
        if ¬result.passed ∧ result.is_mandatory then false
        else acc.all_mandatory_passed }
  | some (Except.error e) =>
    { rule_results := acc.rule_results ++ [(rule, synthetic_error_result rule e)]
      total_score := acc.total_score
      total_weight := acc.total_weight + rule.weight
      rules_passed := acc.rules_passed
      rules_failed := acc.rules_failed + 1
      all_mandatory_passed :=
        if rule.is_mandatory then false else acc.all_mandatory_passed }

/-- Aggregate result of `RuleEngine.evaluate_program`. -/
@[ext] structure ProgramEvaluationResult where
  program : PolicyProgram
  is_eligible : Bool
  fit_score : ℚ
  total_rules_evaluated : ℕ
  rules_passed : ℕ
  rules_failed : ℕ
  mandatory_rules_passed : Bool
  rule_results : List (PolicyRule × EvaluationResult)
deriving Repr, DecidableEq

/-- Embedding of `RuleEngine.evaluate_program`: filter to active rules,
run the rule loop, quantize the weighted average to two decimals (0
when the accumulated weight is not positive), and gate eligibility on
all mandatory rules passing and — when `min_fit_score` is set and
non-zero, a Python truthiness test — on the fit score reaching it. -/
def evaluate_program (today : PyDate) (application : LoanApplication)
    (program : PolicyProgram) : ProgramEvaluationResult :=
  let active_rules := program.rules.filter (fun r => r.active)
  let acc := active_rules.foldl (engine_step today application program)
    { rule_results := [], total_score := 0, total_weight := 0,
      rules_passed := 0, rules_failed := 0, all_mandatory_passed := true }
  let fit_score :=
    if acc.total_weight > 0 then quantize2 (acc.total_score / acc.total_weight) else 0
  let is_eligible :=
    match program.min_fit_score with
    | some m => if m ≠ 0 ∧ fit_score < m then false else acc.all_mandatory_passed
    | none => acc.all_mandatory_passed
  { program := program, is_eligible := is_eligible, fit_score := fit_score,
    total_rules_evaluated := active_rules.length,
    rules_passed := acc.rules_passed, rules_failed := acc.rules_failed,
    mandatory_rules_passed := acc.all_mandatory_passed,
    rule_results := acc.rule_results }

/-- Result the engine records for one rule: the evaluator result when
the evaluator returns, the synthetic failed result when it raises, and
nothing when the rule kind has no registered evaluator. -/
def rule_outcome (today : PyDate) (app : LoanApplication) (program : PolicyProgram)
    (rule : PolicyRule) : Option EvaluationResult :=
  match dispatch_evaluator today (mk_context app program rule) with
  | none => none
  | some (Except.ok result) => some result
  | some (Except.error e) => some (synthetic_error_result rule e)

/-- Pairs the rule loop appends for a given list of rules. -/
def outcome_pairs (today : PyDate) (app : LoanApplication) (program : PolicyProgram)
    (rules : List PolicyRule) : List (PolicyRule × EvaluationResult) :=
  rules.filterMap
    (fun r => (rule_outcome today app program r).map (fun res => (r, res)))

theorem outcome_pairs_nil (today : PyDate) (app : LoanApplication)
    (program : PolicyProgram) : outcome_pairs today app program [] = [] := rfl

theorem outcome_pairs_cons (today : PyDate) (app : LoanApplication)
    (program : PolicyProgram) (r : PolicyRule) (rest : List PolicyRule) :
    outcome_pairs today app program (r :: rest) =
      match rule_outcome today app program r with
      | none => outcome_pairs today app program rest
      | some res => (r, res) :: outcome_pairs today app program rest := by
  unfold outcome_pairs
  rw [List.filterMap_cons]
  cases rule_outcome today app program r <;> simp

/-- Closed form of the rule loop of `RuleEngine.evaluate_program`. -/
theorem engine_foldl_spec (today : PyDate) (app : LoanApplication)
    (program : PolicyProgram) :
    ∀ (rules : List PolicyRule) (acc : EngineAcc),
    rules.foldl (engine_step today app program) acc =
      { rule_results := acc.rule_results ++ outcome_pairs today app program rules
        total_score := acc.total_score +
          ((outcome_pairs today app program rules).map (fun p => p.2.score)).sum
        total_weight := acc.total_weight +
          ((outcome_pairs today app program rules).map (fun p => p.2.weight)).sum
        rules_passed := acc.rules_passed +
          ((outcome_pairs today app program rules).filter (fun p => p.2.passed)).length
        rules_failed := acc.rules_failed +
          ((outcome_pairs today app program rules).filter (fun p => !p.2.passed)).length
        all_mandatory_passed := acc.all_mandatory_passed &&
          (outcome_pairs today app program rules).all
            (fun p => p.2.passed || !p.2.is_mandatory) }
  | [], acc => by
    simp [outcome_pairs_nil]
  | r :: rest, acc => by
    rw [List.foldl_cons, engine_foldl_spec today app program rest,
      outcome_pairs_cons]
    unfold engine_step
    cases hd : dispatch_evaluator today (mk_context app program r) with
    | none =>
      have ho : rule_outcome today app program r = none := by
        unfold rule_outcome; rw [hd]
      rw [ho]
    | some exc =>
      cases exc with
      | ok result =>
        have ho : rule_outcome today app program r = some result := by
          unfold rule_outcome; rw [hd]
        rw [ho]
        ext
        · simp
        · simp; ring
        · simp; ring
        · cases hpass : result.passed <;> simp [hpass] <;> omega
        · cases hpass : result.passed <;> simp [hpass] <;> omega
        · cases hpass : result.passed <;> cases hm : result.is_mandatory <;>
            cases hacc : acc.all_mandatory_passed <;> simp [hpass, hm, hacc]
      | error e =>
        have ho : rule_outcome today app program r =
            some (synthetic_error_result r e) := by
          unfold rule_outcome; rw [hd]
        rw [ho]
        ext
        · simp
        · simp [synthetic_error_result]
        · simp [synthetic_error_result]; ring
        · simp [synthetic_error_result]
        · simp [synthetic_error_result]; omega
        · cases hm : r.is_mandatory <;> cases hacc : acc.all_mandatory_passed <;>
            simp [synthetic_error_result, hm, hacc]

/-- Pairs the engine records for a program: one per active rule whose
kind has a registered evaluator. -/
def evaluated_results (today : PyDate) (app : LoanApplication)
    (program : PolicyProgram) : List (PolicyRule × EvaluationResult) :=
  outcome_pairs today app program (program.rules.filter (fun r => r.active))

/-- Total score accumulated by the engine over recorded results. -/
def results_total_score (prs : List (PolicyRule × EvaluationResult)) : ℚ :=
  (prs.map (fun p => p.2.score)).sum

/-- Total weight accumulated by the engine over recorded results. -/
def results_total_weight (prs : List (PolicyRule × EvaluationResult)) : ℚ :=
  (prs.map (fun p => p.2.weight)).sum

/-- Mandatory gate over recorded results: every mandatory result passed. -/
def results_all_mandatory (prs : List (PolicyRule × EvaluationResult)) : Bool :=
  prs.all (fun p => p.2.passed || !p.2.is_mandatory)

/-- Fit score computed by the engine from the accumulated totals. -/
def fit_of (ts tw : ℚ) : ℚ :=
  if tw > 0 then quantize2 (ts / tw) else 0

/-- Eligibility computed by the engine: the mandatory gate, vetoed when
`min_fit_score` is set, non-zero (Python truthiness) and above the fit. -/
def eligible_of (min_fit : Option ℚ) (fit : ℚ) (allm : Bool) : Bool :=
  match min_fit with
  | some m => if m ≠ 0 ∧ fit < m then false else allm
  | none => allm

/-- Closed form of `RuleEngine.evaluate_program`. -/
theorem evaluate_program_spec (today : PyDate) (app : LoanApplication)
    (program : PolicyProgram) :
    evaluate_program today app program =
      { program := program
        is_eligible := eligible_of program.min_fit_score
          (fit_of (results_total_score (evaluated_results today app program))
            (results_total_weight (evaluated_results today app program)))
          (results_all_mandatory (evaluated_results today app program))
        fit_score := fit_of (results_total_score (evaluated_results today app program))
          (results_total_weight (evaluated_results today app program))
        total_rules_evaluated := (program.rules.filter (fun r => r.active)).length
        rules_passed := ((evaluated_results today app program).filter
          (fun p => p.2.passed)).length
        rules_failed := ((evaluated_results today app program).filter
          (fun p => !p.2.passed)).length
        mandatory_rules_passed := results_all_mandatory (evaluated_results today app program)
        rule_results := evaluated_results today app program } := by
  unfold evaluate_program
  simp only [engine_foldl_spec]
  simp only [List.nil_append, zero_add, Bool.true_and]
  rfl

/-! ## Three-tier matcher (`rule_engine/matcher.py`) -/

/-- Match result dataclass of `matcher.py`. -/
@[ext] structure MatchResult where
  lender : Lender
  program : Option PolicyProgram
  is_eligible : Bool
  fit_score : ℚ
  rejection_reason : Option String
  rejection_tier : Option ℕ
  estimated_rate : Option ℚ
  approval_probability : ℚ
  rule_evaluations : List (PolicyRule × EvaluationResult)
deriving Repr, DecidableEq, Inhabited

/-- Embedding of `Matcher._tier1_lender_filtering`: `none` when the
lender passes, otherwise the first failing check as a sentence.  The
Python truthiness guards make an empty exclusion list and a zero amount
bound behave as absent. -/
def tier1_lender_filtering (application : LoanApplication) (lender : Lender) :
    Option String :=
  if ¬lender.active then some ("Lender " ++ lender.name ++ " is not active")
  else
    let business := application.business
    let stateHit :=
      match lender.excluded_states with
      | some l => !l.isEmpty && l.contains business.state
      | none => false
    if stateHit then
      some ("Business state " ++ business.state ++ " is excluded by lender")
    else
      let industryHit :=
        match lender.excluded_industries with
        | some l => !l.isEmpty && (l.map String.toLower).contains business.industry.toLower
        | none => false
      if industryHit then
        some ("Business industry " ++ business.industry ++ " is excluded by lender")
      else
        let requested_amount := application.requested_amount
        let minHit :=
          match lender.min_loan_amount with
          | some m => decide (m ≠ 0) && decide (requested_amount < m)
          | none => false
        if minHit then
          some ("Requested amount $" ++ toString requested_amount ++
            " below lender minimum $" ++ toString ((lender.min_loan_amount).getD 0))
        else
          let maxHit :=
            match lender.max_loan_amount with
            | some m => decide (m ≠ 0) && decide (requested_amount > m)
            | none => false
          if maxHit then
            some ("Requested amount $" ++ toString requested_amount ++
              " exceeds lender maximum $" ++ toString ((lender.max_loan_amount).getD 0))
          else none

/-- Embedding of `Matcher._check_program_eligibility`.  The source is a
sequence of early `return False` checks with no side effects, so it is
the conjunction of the individual checks; `requires_paynet` demands a
truthy PayNet score (present and non-zero). -/
def check_program_eligibility (application : LoanApplication)
    (program : PolicyProgram) : Bool :=
  match program.eligibility_conditions with
  | none => true
  | some conditions =>
    let guarantor := application.guarantor
    let business := application.business
    let paynet_ok :=
      if conditions.requires_paynet.getD false then
        match guarantor.paynet_score with
        | none => false
        | some p => decide (p ≠ 0)
      else true
    let legal_ok :=
      match conditions.legal_structure with
      | some required => required.contains business.legal_structure
      | none => true
    let industry_ok :=
      match conditions.industry with
      | some required => (required.map String.toLower).contains business.industry.toLower
      | none => true
    let revenue_ok :=
      match conditions.min_revenue with
      | some min_revenue =>
        match business.annual_revenue with
        | none => false
        | some revenue => decide (revenue ≥ min_revenue)
      | none => true
    let homeowner_ok :=
      if conditions.homeowner_required.getD false then guarantor.is_homeowner else true
    let citizen_ok :=
      if conditions.us_citizen_required.getD false then guarantor.is_us_citizen else true
    paynet_ok && legal_ok && industry_ok && revenue_ok && homeowner_ok && citizen_ok

/-- Embedding of `Matcher._tier2_program_selection`: the active programs
whose eligibility conditions the application satisfies. -/
def tier2_program_selection (application : LoanApplication) (lender : Lender) :
    List PolicyProgram :=
  (lender.programs.filter (fun p => p.active)).filter
    (check_program_eligibility application)

/-- Tier-3 selection loop of `Matcher.match_application_to_lenders`:
`best_score` starts at −1 and a candidate replaces the best on a
strictly greater fit score, so the first maximum wins. -/
def pick_best_program (cands : List ProgramEvaluationResult) :
    Option ProgramEvaluationResult :=
  (cands.foldl
    (fun (best : Option ProgramEvaluationResult × ℚ) c =>
      if c.fit_score > best.2 then (some c, c.fit_score) else best)
    (none, -1)).1

/-- Rejection reason and tier of a tier-3 match, from the
`if not best_match.is_eligible` block of the source.  The branch that
compares the fit score against `min_fit_score` is reached only when the
mandatory gate passed, which forces `min_fit_score` to be set, so the
`none` completion of that comparison is unreachable. -/
def tier3_rejection (best_match : ProgramEvaluationResult) :
    Option String × Option ℕ :=
  if best_match.is_eligible then (none, none)
  else
    let failed_mandatory := best_match.rule_results.filter
      (fun p => p.2.is_mandatory && !p.2.passed)
    if !failed_mandatory.isEmpty then
      (some (String.intercalate "; " (failed_mandatory.map (fun p => p.2.reason))), some 3)
    else
      match best_match.program.min_fit_score with
      | some m =>
        if best_match.fit_score < m then
          (some ("Fit score " ++ toString best_match.fit_score ++
            " below minimum " ++ toString m), some 3)
        else (some "Failed to meet program requirements", some 3)
      | none => (some "Failed to meet program requirements", some 3)

/-- Per-lender body of `Matcher.match_application_to_lenders`: tier-1
rejection, tier-2 rejection, or the enriched result of the best tier-3
program.  `none` corresponds to the source appending nothing, which can
only happen when every candidate fit score is at most −1. -/
def match_lender (today : PyDate) (application : LoanApplication)
    (lender : Lender) : Option MatchResult :=
  match tier1_lender_filtering application lender with
  | some reason =>
    some { lender := lender, program := none, is_eligible := false, fit_score := 0,
           rejection_reason := some reason, rejection_tier := some 1,
           estimated_rate := none, approval_probability := 0, rule_evaluations := [] }
  | none =>
    let eligible_programs := tier2_program_selection application lender
    if eligible_programs.isEmpty then
      some { lender := lender, program := none, is_eligible := false, fit_score := 0,
             rejection_reason := some "No eligible programs match application criteria",
             rejection_tier := some 2,
             estimated_rate := none, approval_probability := 0, rule_evaluations := [] }
    else
      match pick_best_program
          (eligible_programs.map (evaluate_program today application)) with
      | none => none
      | some best_match =>
        let rate := estimate_rate best_match.program.rate_metadata
          application.requested_amount
          (application.equipment.age_years today)
          application.guarantor.fico_score
        let approval_probability := calculate_approval_probability
          best_match.fit_score best_match.mandatory_rules_passed
        let rejection := tier3_rejection best_match
        some { lender := lender, program := some best_match.program,
               is_eligible := best_match.is_eligible,
               fit_score := best_match.fit_score,
               rejection_reason := rejection.1, rejection_tier := rejection.2,
               estimated_rate := rate,
               approval_probability := approval_probability,
               rule_evaluations := best_match.rule_results }

/-- Sort key comparison of the final `results.sort`: ascending in the
tuple `(not is_eligible, -fit_score)`, so eligible entries come first
and fit scores descend within a group. -/
def match_sort_le (a b : MatchResult) : Bool :=
  if a.is_eligible = b.is_eligible then decide (b.fit_score ≤ a.fit_score)
  else a.is_eligible

/-- Embedding of `Matcher.match_application_to_lenders`: one pass over
the lenders appending at most one result each, then a stable sort by
`(not is_eligible, -fit_score)`; `List.mergeSort` is stable and so
models Python `list.sort`. -/
def match_application_to_lenders (today : PyDate)
    (application : LoanApplication) (lenders : List Lender) : List MatchResult :=
  (lenders.filterMap (match_lender today application)).mergeSort match_sort_le

/-! ## Persistence rows and orchestrator (`underwriting_service.py`,
`repositories/match_repository.py`)

Repository writes `flush` into the open transaction and become durable
only at `db.commit()`; the session model below keeps pending and
committed states apart and moves pending writes to committed on
`commit`, matching that behaviour. -/

/-- Run lifecycle states of `UnderwritingStatus`. -/
inductive UnderwritingStatus where
  | pending | in_progress | completed | failed | cancelled
deriving Repr, DecidableEq

/-- Persisted underwriting run row; timestamps are tracked as stamped
flags because no claim depends on their values. -/
structure DbRun where
  status : UnderwritingStatus
  started_at : Bool
  completed_at : Bool
  error_message : Option String
deriving Repr, DecidableEq

/-- Persisted match result row built by `_persist_match_results`. -/
structure DbMatchResult where
  lender_id : ℕ
  program_id : Option ℕ
  is_eligible : Bool
  fit_score : ℚ
  rejection_reason : Option String
  rejection_tier : Option ℕ
  estimated_rate : Option ℚ
  approval_probability : Option ℚ
  total_rules_evaluated : ℕ
  rules_passed : ℕ
  rules_failed : ℕ
  mandatory_rules_passed : Bool
deriving Repr, DecidableEq, Inhabited

/-- Persisted rule evaluation row; `match_index` stands for the foreign
key to the enclosing match result, identified by its position in the
batch. -/
structure DbRuleEvaluation where
  match_index : ℕ
  rule_id : ℕ
  rule_name : String
  rule_type : RuleType
  passed : Bool
  score : ℚ
  weight : ℚ
  is_mandatory : Bool
  reason : String
  evidence : List (String × EvVal)
deriving Repr, DecidableEq

/-- Row construction of `_persist_match_results` for one matcher
result: rule counters recomputed from the evaluations, the mandatory
flag as `all(passed for mandatory evaluations)` — vacuously true on an
empty list — and the approval probability persisted as a value. -/
def persist_match_result_row (m : MatchResult) : DbMatchResult :=
  let rules_passed := (m.rule_evaluations.filter (fun p => p.2.passed)).length
  let rules_failed := m.rule_evaluations.length - rules_passed
  let mandatory_passed := m.rule_evaluations.all (fun p => !p.2.is_mandatory || p.2.passed)
  { lender_id := m.lender.id
    program_id := m.program.map (fun p => p.id)
    is_eligible := m.is_eligible
    fit_score := m.fit_score
    rejection_reason := m.rejection_reason
    rejection_tier := m.rejection_tier
    estimated_rate := m.estimated_rate
    approval_probability := some m.approval_probability
    total_rules_evaluated := m.rule_evaluations.length
    rules_passed := rules_passed
    rules_failed := rules_failed
    mandatory_rules_passed := mandatory_passed }

/-- Rule evaluation rows of `_persist_match_results` for the match at
position `idx` of the batch. -/
def persist_rule_evaluation_rows (idx : ℕ) (m : MatchResult) :
    List DbRuleEvaluation :=
  m.rule_evaluations.map (fun p =>
    { match_index := idx
      rule_id := p.1.id
      rule_name := p.1.rule_name
      rule_type := p.1.rule_type
      passed := p.2.passed
      score := p.2.score
      weight := p.2.weight
      is_mandatory := p.2.is_mandatory
      reason := p.2.reason
      evidence := p.2.evidence })

/-- Embedding of `UnderwritingService._persist_match_results`: the match
rows in input order and the evaluation rows grouped by match. -/
def persist_match_results (results : List MatchResult) :
    List DbMatchResult × List DbRuleEvaluation :=
  (results.map persist_match_result_row,
   (results.enum.map (fun p => persist_rule_evaluation_rows p.1 p.2)).flatten)

/-- Database session during one underwriting run: the committed rows
and the pending (flushed but uncommitted) writes of the open
transaction. -/
structure SessionState where
  run : DbRun
  pending_run : Option DbRun
  match_results : List DbMatchResult
  pending_match_results : List DbMatchResult
  rule_evaluations : List DbRuleEvaluation
  pending_rule_evaluations : List DbRuleEvaluation
deriving Repr, DecidableEq

/-- `db.commit()`: pending writes become durable. -/
def session_commit (s : SessionState) : SessionState :=
  { run := s.pending_run.getD s.run
    pending_run := none
    match_results := s.match_results ++ s.pending_match_results
    pending_match_results := []
    rule_evaluations := s.rule_evaluations ++ s.pending_rule_evaluations
    pending_rule_evaluations := [] }

/-- `update_run_status`: flush a run row update into the transaction,
overwriting only the supplied fields. -/
def session_update_run_status (s : SessionState) (status : UnderwritingStatus)
    (set_started set_completed : Bool) (error_message : Option String) :
    SessionState :=
  let current := s.pending_run.getD s.run
  let updated : DbRun :=
    { status := status
      started_at := current.started_at || set_started
      completed_at := current.completed_at || set_completed
      error_message :=
        match error_message with
        | some e => some e
        | none => current.error_message }
  { s with pending_run := some updated }

/-- Flush the match result and rule evaluation batches into the
transaction. -/
def session_persist (s : SessionState) (results : List MatchResult) :
    SessionState :=
  { s with
    pending_match_results := s.pending_match_results ++ (persist_match_results results).1
    pending_rule_evaluations := s.pending_rule_evaluations ++ (persist_match_results results).2 }

/-- Embedding of the control flow of
`UnderwritingService.run_underwriting`.  Data loading and the matcher
are passed as outcomes (`Except.error` standing for a raised
exception), covering application-not-found, missing relations and any
matcher failure; the source catches any exception from the `try` block,
writes the Failed status with the error message, commits, and
re-raises.  The `lenders = []` early path completes the run without
invoking the matcher. -/
def run_underwriting
    (load_application : Except String LoanApplication)
    (load_lenders : Except String (List Lender))
    (run_matcher : LoanApplication → List Lender → Except String (List MatchResult)) :
    SessionState × Except String Unit :=
  let s0 : SessionState :=
    { run := { status := .pending, started_at := false, completed_at := false,
               error_message := none }
      pending_run := none, match_results := [], pending_match_results := []
      rule_evaluations := [], pending_rule_evaluations := [] }
  let fail : SessionState → String → SessionState × Except String Unit := fun s e =>
    (session_commit (session_update_run_status s .failed false true (some e)), .error e)
  let s1 := session_commit (session_update_run_status s0 .in_progress true false none)
  match load_application with
  | .error e => fail s1 e
  | .ok application =>
    match load_lenders with
    | .error e => fail s1 e
    | .ok lenders =>
      if lenders.isEmpty then
        (session_commit (session_update_run_status s1 .completed false true none), .ok ())
      else
        match run_matcher application lenders with
        | .error e => fail s1 e
        | .ok match_results =>
          let s2 := session_persist s1 match_results
          let s3 := session_update_run_status s2 .completed false true none
          (session_commit s3, .ok ())

/-! ## Specification-side definitions

These two definitions follow the wording of the specification, not the
source; they exist to be compared against the source embeddings. -/

/-- Base-rate row filter of the source scan: the row carries all three
required keys and its amount range contains the loan amount. -/
def base_rate_row_matches (loan_amount : ℚ) (e : RateEntry) : Bool :=
  match e.min_amount, e.max_amount, e.rate with
  | some min_dec, some max_dec, some _ =>
    decide (min_dec ≤ loan_amount ∧ loan_amount ≤ max_dec)
  | _, _, _ => false

/-- Modelled from the specification sentence for base-rate resolution:
the linear scan that, in addition to the amount range, uses a row with
term bounds only when the requested term falls inside them and
otherwise skips it.  The source scan does not do this. -/
def find_base_rate_with_term : List RateEntry → ℚ → ℤ → Option ℚ
  | [], _, _ => none
  | e :: rest, loan_amount, term =>
    match e.min_amount, e.max_amount, e.rate with
    | some min_dec, some max_dec, some rate =>
      if min_dec ≤ loan_amount ∧ loan_amount ≤ max_dec then
        if (e.min_term.all (fun t => decide (t ≤ term))) &&
            (e.max_term.all (fun t => decide (term ≤ t))) then some rate
        else find_base_rate_with_term rest loan_amount term
      else find_base_rate_with_term rest loan_amount term
    | _, _, _ => find_base_rate_with_term rest loan_amount term

/-- Modelled from the claim sentence for the fit score: the sum of
per-rule scores divided by the sum of per-rule weights over all of the
program's active rules (rules with no recorded result contributing no
score but their full weight), quantized and clamped to [0, 100]. -/
def fit_score_per_claim (today : PyDate) (app : LoanApplication)
    (program : PolicyProgram) : ℚ :=
  let active := program.rules.filter (fun r => r.active)
  let total_score := (active.map (fun r =>
    ((rule_outcome today app program r).map (fun res => res.score)).getD 0)).sum
  let total_weight := (active.map (fun r => r.weight)).sum
  pymax 0 (pymin 100 (quantize2 (total_score / total_weight)))

/-- Projection observed by the determinism property: lender id, program
id, eligibility, fit score and rejection tier of one match. -/
structure MatchProjection where
  lender_id : ℕ
  program_id : Option ℕ
  is_eligible : Bool
  fit_score : ℚ
  rejection_tier : Option ℕ
deriving Repr, DecidableEq

/-- Projection of a matcher result to the observed quintuple. -/
def match_projection (m : MatchResult) : MatchProjection :=
  { lender_id := m.lender.id, program_id := m.program.map (fun p => p.id),
    is_eligible := m.is_eligible, fit_score := m.fit_score,
    rejection_tier := m.rejection_tier }

/-- Sort comparison transported along `match_projection`. -/
def proj_sort_le (a b : MatchProjection) : Bool :=
  if a.is_eligible = b.is_eligible then decide (b.fit_score ≤ a.fit_score)
  else a.is_eligible

/-! ## Helper lemmas -/

theorem quantize2_zero : quantize2 0 = 0 := by
  norm_num [quantize2, roundHalfEven]

theorem match_sort_le_total (a b : MatchResult) :
    match_sort_le a b || match_sort_le b a := by
  unfold match_sort_le
  by_cases h : a.is_eligible = b.is_eligible
  · rw [if_pos h, if_pos h.symm]
    rcases le_total a.fit_score b.fit_score with hle | hle
    · simp [hle]
    · simp [hle]
  · have h2 : ¬b.is_eligible = a.is_eligible := fun hh => h hh.symm
    rw [if_neg h, if_neg h2]
    cases ha : a.is_eligible <;> cases hb : b.is_eligible <;> simp_all

theorem match_sort_le_trans (a b c : MatchResult)
    (h1 : match_sort_le a b) (h2 : match_sort_le b c) : match_sort_le a c := by
  unfold match_sort_le at *
  cases ha : a.is_eligible <;> cases hb : b.is_eligible <;>
    cases hc : c.is_eligible <;> simp_all <;> linarith

/-- Stability of `List.mergeSort` through filters: when every pair of
elements kept by the filter is related both ways by the comparison, the
sort does not reorder them. -/
theorem mergeSort_filter_stable {α : Type} (le : α → α → Bool) (l : List α)
    (p : α → Bool)
    (htrans : ∀ (a b c : α), le a b → le b c → le a c)
    (htotal : ∀ (a b : α), le a b || le b a)
    (hp : ∀ (a b : α), p a → p b → le a b) :
    (l.mergeSort le).filter p = l.filter p := by
  have hsub : List.Sublist (l.filter p) l := List.filter_sublist l
  have hpw : (l.filter p).Pairwise (fun a b => le a b) := by
    apply List.pairwise_of_forall_mem_list
    intro a ha b hb
    exact hp a b (List.of_mem_filter ha) (List.of_mem_filter hb)
  have hs : List.Sublist (l.filter p) (l.mergeSort le) :=
    List.sublist_mergeSort htrans htotal hpw hsub
  have hs2 : List.Sublist ((l.filter p).filter p) ((l.mergeSort le).filter p) :=
    List.Sublist.filter p hs
  have hidem : (l.filter p).filter p = l.filter p := by
    rw [List.filter_filter]
    simp
  rw [hidem] at hs2
  have hlen : ((l.mergeSort le).filter p).length = (l.filter p).length := by
    have hperm := (List.mergeSort_perm l le).filter p
    exact hperm.length_eq
  exact (hs2.eq_of_length hlen.symm).symm

theorem find_base_rate_eq_find? :
    ∀ (entries : List RateEntry) (loan_amount : ℚ),
    find_base_rate entries loan_amount =
      (entries.find? (base_rate_row_matches loan_amount)).bind (fun e => e.rate)
  | [], _ => rfl
  | e :: rest, loan_amount => by
    rw [List.find?_cons]
    unfold find_base_rate
    cases hmin : e.min_amount with
    | none =>
      have hb : base_rate_row_matches loan_amount e = false := by
        unfold base_rate_row_matches; rw [hmin]
      rw [hb]
      exact find_base_rate_eq_find? rest loan_amount
    | some min_dec =>
      cases hmax : e.max_amount with
      | none =>
        have hb : base_rate_row_matches loan_amount e = false := by
          unfold base_rate_row_matches; rw [hmin, hmax]
        rw [hb]
        exact find_base_rate_eq_find? rest loan_amount
      | some max_dec =>
        cases hr : e.rate with
        | none =>
          have hb : base_rate_row_matches loan_amount e = false := by
            unfold base_rate_row_matches; rw [hmin, hmax, hr]
          rw [hb]
          exact find_base_rate_eq_find? rest loan_amount
        | some rate =>
          have hb : base_rate_row_matches loan_amount e =
              decide (min_dec ≤ loan_amount ∧ loan_amount ≤ max_dec) := by
            unfold base_rate_row_matches; rw [hmin, hmax, hr]
          rw [hb]
          by_cases hc : min_dec ≤ loan_amount ∧ loan_amount ≤ max_dec
          · simp [hc, hr]
          · simp [hc, find_base_rate_eq_find? rest loan_amount]

/-- C1 (amended): base-rate resolution is a linear scan returning the
rate of the first row whose `[min_amount, max_amount]` range contains
the requested amount inclusively at both ends, skipping rows missing
any of the three required keys and ignoring any term bounds a row may
carry; when no row matches — or `rate_metadata` is absent — the
estimated rate is null, and otherwise it is the matched base rate plus
the applicable adjustments, floored at zero. -/
theorem C1_base_rate_resolution :
    (∀ (entries : List RateEntry) (loan_amount : ℚ),
      find_base_rate entries loan_amount =
        (entries.find? (base_rate_row_matches loan_amount)).bind (fun e => e.rate)) ∧
    (∀ (loan_amount : ℚ) (ea fs : Option ℤ),
      estimate_rate none loan_amount ea fs = none) ∧
    (∀ (md : RateMetadata) (loan_amount : ℚ) (ea fs : Option ℤ),
      estimate_rate (some md) loan_amount ea fs =
        (find_base_rate md.base_rates loan_amount).map
          (fun base_rate => pymax 0
            (base_rate + total_adjustment md.adjustments ea fs))) := by
  refine ⟨find_base_rate_eq_find?, fun _ _ _ => rfl, ?_⟩
  intro md loan_amount ea fs
  unfold estimate_rate
  cases h : find_base_rate md.base_rates loan_amount <;> simp [h]

/-- Rate row of the C1 counterexample: it matches the amount but
carries term bounds `[60, 84]`. -/
def c1_rate_row : RateEntry :=
  { min_amount := some 0, max_amount := some 100000, rate := some 5,
    min_term := some 60, max_term := some 84 }

/-- Rate table of the C1 counterexample. -/
def c1_rate_metadata : RateMetadata :=
  { base_rates := [c1_rate_row], adjustments := [] }

/-- C1 counterexample: for a requested term of 12 months the claim says
the only row (term bounds `[60, 84]`) is skipped and the estimated rate
is null, but the source returns its rate 5 because `_find_base_rate`
never reads the term bounds. -/
theorem C1_counterexample :
    estimate_rate (some c1_rate_metadata) 50000 none none = some 5 ∧
    find_base_rate_with_term c1_rate_metadata.base_rates 50000 12 = none := by
  constructor
  · decide
  · decide

/-! ## C6 scenario instances -/

/-- Non-mandatory `min_fico` rule requiring 680 with weight 2. -/
def c6_rule : PolicyRule :=
  { id := 1, rule_type := .min_fico, rule_name := "Minimum FICO",
    criteria := { min_score := some 680 }, weight := 2,
    is_mandatory := false, active := true }

/-- Business of the C6 scenario. -/
def c6_business : Business :=
  { industry := "Construction", legal_structure := "LLC",
    established_date := { year := 2018, month := 3 },
    annual_revenue := some 500000, state := "TX" }

/-- Guarantor of the C6 scenario with FICO 660. -/
def c6_guarantor : PersonalGuarantor :=
  { fico_score := some 660, paynet_score := none,
    credit_utilization_percentage := none,
    is_homeowner := true, is_us_citizen := true }

/-- Equipment of the C6 scenario. -/
def c6_equipment : Equipment :=
  { equipment_type := "Excavator", year_manufactured := some 2022,
    condition := .used, cost := 80000 }

/-- Application of the C6 scenario. -/
def c6_application : LoanApplication :=
  { requested_amount := 50000, requested_term_months := 60,
    down_payment_percentage := none, business := c6_business,
    guarantor := c6_guarantor, equipment := c6_equipment }

/-- Single-rule program of the C6 scenario. -/
def c6_program : PolicyProgram :=
  { id := 1, program_name := "Standard", eligibility_conditions := none,
    rate_metadata := none, min_fit_score := some 0, active := true,
    rules := [c6_rule] }

/-- Evaluation date of the C6 scenario. -/
def c6_today : PyDate := { year := 2026, month := 10 }

/-- C6 (amended): a `min_fico` rule fails with score 0 when the
guarantor FICO is absent; when the FICO is below the required minimum
with gap = min − FICO of at most 50 points, the result is not passed
and its score is the context-rounded product of `weight × 100` with
the fraction `Decimal(str(max(0, 1 − gap/50)))` computed in binary
floating point — which equals the exact `max(0, 1 − gap/50)` only when
that value survives the double round-trip — and the score is zero once
the gap exceeds 50 points; in the concrete scenario (min 680, weight
2, FICO 660) the float computation is exact and the result is
`passed = false` with score 120.00, contributing a fit score of 60
without blocking eligibility because the rule is not mandatory. -/
theorem C6_min_fico_partial_credit (ctx : EvaluationContext) (min_score : ℤ)
    (hmin : ctx.rule.criteria.min_score = some min_score) :
    (ctx.guarantor.fico_score = none →
      ∃ res, evaluate_min_fico ctx = Except.ok res ∧
        res.passed = false ∧ res.score = 0) ∧
    (∀ fico, ctx.guarantor.fico_score = some fico → fico < min_score →
      ∃ res, evaluate_min_fico ctx = Except.ok res ∧ res.passed = false ∧
        res.score =
          (if min_score - fico ≤ 50 then
            roundDecimal28 (roundDecimal28 (100 * ctx.rule.weight) *
              float_credit_fraction (min_score - fico) 50)
          else 0)) ∧
    ((Except.toOption
      (evaluate_min_fico (mk_context c6_application c6_program c6_rule))).map
        (fun res => (res.passed, res.score)) = some (false, 120)) ∧
    (evaluate_program c6_today c6_application c6_program).fit_score = 60 ∧
    (evaluate_program c6_today c6_application c6_program).is_eligible = true := by
  refine ⟨?_, ?_, by decide, by decide, by decide⟩
  · intro h
    simp only [evaluate_min_fico, hmin, h]
    exact ⟨_, rfl, rfl, rfl⟩
  · intro fico hf hlt
    have hnot : ¬(fico ≥ min_score) := not_le.mpr hlt
    simp only [evaluate_min_fico, hmin, hf]
    refine ⟨_, rfl, ?_, ?_⟩
    · simp [hnot]
    · dsimp only
      rw [if_neg hnot]
      by_cases hgap : min_score - fico ≤ 50
      · rw [if_pos hgap, if_pos hgap]
        unfold calculate_score
        rw [if_neg (by simp)]
        by_cases hpc : float_credit_fraction (min_score - fico) 50 > 0
        · rw [if_pos hpc]
        · rw [if_neg hpc]
          have h0 : float_credit_fraction (min_score - fico) 50 = 0 :=
            le_antisymm (not_lt.mp hpc) (float_credit_fraction_nonneg _ _)
          rw [h0, mul_zero, roundDecimal28_zero]
      · rw [if_neg hgap, if_neg hgap]

/-- C6 witness: the concrete scenario through the theorem. -/
theorem C6_min_fico_partial_credit_witness :
    (evaluate_program c6_today c6_application c6_program).fit_score = 60 :=
  (C6_min_fico_partial_credit (mk_context c6_application c6_program c6_rule)
    680 rfl).2.2.2.1

/-- Guarantor with FICO 671: nine points below the 680 minimum. -/
def c6x_guarantor : PersonalGuarantor :=
  { fico_score := some 671, paynet_score := none,
    credit_utilization_percentage := none,
    is_homeowner := true, is_us_citizen := true }

/-- Application of the C6 counterexample: the C6 scenario with the
nine-point-gap guarantor. -/
def c6x_application : LoanApplication :=
  { c6_application with guarantor := c6x_guarantor }

/-- C6 counterexample: at a nine-point gap the binary64 computation of
`1 − 9/50` yields `0.8200000000000001`, so the recorded score at
weight 2 is `164.00000000000002` — not the `164` the claim's exact
formula `weight × 100 × max(0, 1 − gap/50)` gives. -/
theorem C6_counterexample :
    (Except.toOption
      (evaluate_min_fico (mk_context c6x_application c6_program c6_rule))).map
        (fun res => res.score) =
      some ((16400000000000002 : ℚ) / 100000000000000) ∧
    c6_rule.weight * 100 * pymax 0 (1 - ((680 - 671 : ℤ) : ℚ) / 50) = 164 ∧
    ((16400000000000002 : ℚ) / 100000000000000) ≠ 164 := by
  refine ⟨by decide, by decide, by decide⟩

/-- C2: whenever `run_underwriting` catches an exception from data
loading (application fetch or validation, lender fetch) or from the
matcher, the run row is committed as Failed with `error_message` set,
no match result or rule evaluation rows for the run are committed —
the pending transaction held none at that point, so the commit of the
Failed transition durably writes none — and the original exception is
re-surfaced to the caller. -/
theorem C2_failure_semantics
    (load_application : Except String LoanApplication)
    (load_lenders : Except String (List Lender))
    (run_matcher : LoanApplication → List Lender → Except String (List MatchResult))
    (e : String)
    (h : load_application = Except.error e ∨
      (∃ app, load_application = Except.ok app ∧ load_lenders = Except.error e) ∨
      (∃ app lenders, load_application = Except.ok app ∧
        load_lenders = Except.ok lenders ∧ lenders ≠ [] ∧
        run_matcher app lenders = Except.error e)) :
    (run_underwriting load_application load_lenders run_matcher).1.run.status =
      UnderwritingStatus.failed ∧
    (run_underwriting load_application load_lenders run_matcher).1.run.error_message =
      some e ∧
    (run_underwriting load_application load_lenders run_matcher).1.match_results = [] ∧
    (run_underwriting load_application load_lenders run_matcher).1.rule_evaluations = [] ∧
    (run_underwriting load_application load_lenders run_matcher).2 =
      Except.error e := by
  rcases h with h1 | ⟨app, h1, h2⟩ | ⟨app, lenders, h1, h2, h3, h4⟩
  · simp [run_underwriting, h1, session_commit, session_update_run_status]
  · simp [run_underwriting, h1, h2, session_commit, session_update_run_status]
  · have hne : lenders.isEmpty = false := by
      cases lenders with
      | nil => exact absurd rfl h3
      | cons a l => rfl
    simp [run_underwriting, h1, h2, h4, hne, session_commit,
      session_update_run_status]

/-- C2 witness: an application-load failure through the theorem. -/
theorem C2_failure_semantics_witness :
    (run_underwriting (Except.error "boom") (Except.ok [])
      (fun _ _ => Except.ok [])).1.run.status = UnderwritingStatus.failed ∧
    (run_underwriting (Except.error "boom") (Except.ok [])
      (fun _ _ => Except.ok [])).1.run.error_message = some "boom" ∧
    (run_underwriting (Except.error "boom") (Except.ok [])
      (fun _ _ => Except.ok [])).1.match_results = [] ∧
    (run_underwriting (Except.error "boom") (Except.ok [])
      (fun _ _ => Except.ok [])).1.rule_evaluations = [] ∧
    (run_underwriting (Except.error "boom") (Except.ok [])
      (fun _ _ => Except.ok [])).2 = Except.error "boom" :=
  C2_failure_semantics (Except.error "boom") (Except.ok [])
    (fun _ _ => Except.ok []) "boom" (Or.inl rfl)

theorem evaluate_program_program (today : PyDate) (app : LoanApplication)
    (program : PolicyProgram) :
    (evaluate_program today app program).program = program := rfl

theorem evaluate_program_rule_results (today : PyDate) (app : LoanApplication)
    (program : PolicyProgram) :
    (evaluate_program today app program).rule_results =
      evaluated_results today app program := by
  rw [evaluate_program_spec]

theorem tier3_rejection_snd (best : ProgramEvaluationResult) :
    (tier3_rejection best).2 = none ∨ (tier3_rejection best).2 = some 3 := by
  unfold tier3_rejection
  split
  · exact Or.inl rfl
  · dsimp only
    split
    · exact Or.inr rfl
    · split
      · split
        · exact Or.inr rfl
        · exact Or.inr rfl
      · exact Or.inr rfl

theorem pick_best_foldl_mem :
    ∀ (cands : List ProgramEvaluationResult)
      (init : Option ProgramEvaluationResult × ℚ) (b : ProgramEvaluationResult),
    (cands.foldl
      (fun best c => if c.fit_score > best.2 then (some c, c.fit_score) else best)
      init).1 = some b →
    b ∈ cands ∨ init.1 = some b
  | [], _, _ => fun h => Or.inr h
  | c :: rest, init, b => fun h => by
    rw [List.foldl_cons] at h
    rcases pick_best_foldl_mem rest _ b h with hmem | hinit
    · exact Or.inl (List.mem_cons_of_mem _ hmem)
    · by_cases hc : c.fit_score > init.2
      · rw [if_pos hc] at hinit
        exact Or.inl (by rw [Option.some.injEq] at hinit; rw [← hinit]; exact List.mem_cons_self c rest)
      · rw [if_neg hc] at hinit
        exact Or.inr hinit

theorem pick_best_program_mem (cands : List ProgramEvaluationResult)
    (b : ProgramEvaluationResult) (h : pick_best_program cands = some b) :
    b ∈ cands := by
  unfold pick_best_program at h
  rcases pick_best_foldl_mem cands (none, -1) b h with hmem | hinit
  · exact hmem
  · exact absurd hinit (by simp)

theorem mem_match_output (today : PyDate) (app : LoanApplication)
    (lenders : List Lender) (m : MatchResult)
    (hm : m ∈ match_application_to_lenders today app lenders) :
    ∃ lender, lender ∈ lenders ∧ match_lender today app lender = some m := by
  unfold match_application_to_lenders at hm
  rw [List.mem_mergeSort] at hm
  exact List.mem_filterMap.mp hm

theorem match_lender_tier12 (today : PyDate) (app : LoanApplication)
    (lender : Lender) (m : MatchResult)
    (hm : match_lender today app lender = some m)
    (ht : m.rejection_tier = some 1 ∨ m.rejection_tier = some 2) :
    m.program = none ∧ m.rule_evaluations = [] ∧ m.estimated_rate = none ∧
    m.approval_probability = 0 ∧ m.is_eligible = false := by
  unfold match_lender at hm
  cases h1 : tier1_lender_filtering app lender with
  | some reason =>
    rw [h1] at hm
    rw [Option.some.injEq] at hm
    rw [← hm]
    exact ⟨rfl, rfl, rfl, rfl, rfl⟩
  | none =>
    rw [h1] at hm
    dsimp only at hm
    by_cases h2 : (tier2_program_selection app lender).isEmpty
    · rw [if_pos h2] at hm
      rw [Option.some.injEq] at hm
      rw [← hm]
      exact ⟨rfl, rfl, rfl, rfl, rfl⟩
    · rw [if_neg h2] at hm
      cases h3 : pick_best_program
          ((tier2_program_selection app lender).map (evaluate_program today app)) with
      | none => rw [h3] at hm; exact absurd hm (by simp)
      | some best =>
        rw [h3] at hm
        rw [Option.some.injEq] at hm
        have htier : m.rejection_tier = (tier3_rejection best).2 := by
          rw [← hm]
        rcases tier3_rejection_snd best with h4 | h4 <;> rw [h4] at htier <;>
          rcases ht with ht | ht <;> rw [ht] at htier <;> simp at htier

theorem match_lender_tier3 (today : PyDate) (app : LoanApplication)
    (lender : Lender) (m : MatchResult)
    (hm : match_lender today app lender = some m)
    (ht : m.rejection_tier = some 3) :
    ∃ prog, m.program = some prog ∧
      m.rule_evaluations = evaluated_results today app prog := by
  unfold match_lender at hm
  cases h1 : tier1_lender_filtering app lender with
  | some reason =>
    rw [h1] at hm
    rw [Option.some.injEq] at hm
    rw [← hm] at ht
    simp at ht
  | none =>
    rw [h1] at hm
    dsimp only at hm
    by_cases h2 : (tier2_program_selection app lender).isEmpty
    · rw [if_pos h2] at hm
      rw [Option.some.injEq] at hm
      rw [← hm] at ht
      simp at ht
    · rw [if_neg h2] at hm
      cases h3 : pick_best_program
          ((tier2_program_selection app lender).map (evaluate_program today app)) with
      | none => rw [h3] at hm; exact absurd hm (by simp)
      | some best =>
        rw [h3] at hm
        rw [Option.some.injEq] at hm
        have hbmem := pick_best_program_mem _ _ h3
        rcases List.mem_map.mp hbmem with ⟨prog, _, hbeq⟩
        refine ⟨prog, ?_, ?_⟩
        · rw [← hm]
          dsimp only
          rw [← hbeq, evaluate_program_program]
        · rw [← hm]
          dsimp only
          rw [← hbeq, evaluate_program_rule_results]

theorem rule_outcome_isSome (today : PyDate) (app : LoanApplication)
    (program : PolicyProgram) (r : PolicyRule) :
    (rule_outcome today app program r).isSome =
      has_registered_evaluator r.rule_type := by
  unfold rule_outcome dispatch_evaluator has_registered_evaluator mk_context
  cases hr : r.rule_type <;> simp only [hr] <;> (try rfl) <;> (split <;> simp_all)

/-- Output of the matcher on a one-lender catalog, in a form that
computes: `mergeSort` recurses on a well-founded measure, so concrete
runs are evaluated through this equation. -/
theorem match_output_one (today : PyDate) (app : LoanApplication)
    (lender : Lender) :
    match_application_to_lenders today app [lender] =
      (match_lender today app lender).toList := by
  unfold match_application_to_lenders
  cases h : match_lender today app lender <;> simp [List.filterMap_cons, h]

/-- C10: every match result rejected at tier 1 or tier 2 is persisted
with `mandatory_rules_passed = true` (the quantifier over its empty
evaluation list is vacuously true), `approval_probability = 0.00`
rather than null, and `estimated_rate = null`. -/
theorem C10_tier12_persistence (today : PyDate) (app : LoanApplication)
    (lenders : List Lender) (db : DbMatchResult)
    (hdb : db ∈ (persist_match_results
      (match_application_to_lenders today app lenders)).1)
    (ht : db.rejection_tier = some 1 ∨ db.rejection_tier = some 2) :
    db.mandatory_rules_passed = true ∧ db.approval_probability = some 0 ∧
    db.estimated_rate = none := by
  unfold persist_match_results at hdb
  dsimp only at hdb
  rcases List.mem_map.mp hdb with ⟨m, hmem, hrow⟩
  rcases mem_match_output today app lenders m hmem with ⟨lender, _, hml⟩
  have htm : m.rejection_tier = some 1 ∨ m.rejection_tier = some 2 := by
    rw [← hrow] at ht
    exact ht
  rcases match_lender_tier12 today app lender m hml htm with
    ⟨_, hevals, hrate, happr, _⟩
  rw [← hrow]
  unfold persist_match_result_row
  rw [hevals, hrate, happr]
  exact ⟨rfl, rfl, rfl⟩

/-- Inactive lender of the C10 witness scenario; tier 1 rejects it. -/
def c10_lender : Lender :=
  { id := 7, name := "Shut Lender", active := false, min_loan_amount := none,
    max_loan_amount := none, excluded_states := none,
    excluded_industries := none, programs := [] }

/-- First persisted row of the C10 witness scenario. -/
def c10_db : DbMatchResult :=
  ((persist_match_results
    (match_application_to_lenders c6_today c6_application [c10_lender])).1).headI

/-- C10 witness: the tier-1 row of the concrete scenario through the
theorem. -/
theorem C10_tier12_persistence_witness :
    c10_db.mandatory_rules_passed = true ∧
    c10_db.approval_probability = some 0 ∧ c10_db.estimated_rate = none :=
  C10_tier12_persistence c6_today c6_application [c10_lender] c10_db
    (by unfold c10_db; rw [match_output_one]; decide)
    (by unfold c10_db; rw [match_output_one]; decide)

/-- C7: in every matcher result, a rejection at tier 1 or tier 2 comes
with no program reference and no rule evaluations, and a rejection at
tier 3 comes with the retained program set and a non-empty evaluation
list whenever that program has an active rule whose kind has a
registered evaluator (rule kinds without a registered evaluator are
silently skipped and produce no evaluation). -/
theorem C7_tier_invariants (today : PyDate) (app : LoanApplication)
    (lenders : List Lender) (m : MatchResult)
    (hm : m ∈ match_application_to_lenders today app lenders) :
    (m.rejection_tier = some 1 → m.program = none ∧ m.rule_evaluations = []) ∧
    (m.rejection_tier = some 2 → m.program = none ∧ m.rule_evaluations = []) ∧
    (m.rejection_tier = some 3 → ∃ prog, m.program = some prog ∧
      ((prog.rules.any (fun r => r.active && has_registered_evaluator r.rule_type)) = true →
        m.rule_evaluations ≠ [])) := by
  rcases mem_match_output today app lenders m hm with ⟨lender, _, hml⟩
  refine ⟨?_, ?_, ?_⟩
  · intro ht
    rcases match_lender_tier12 today app lender m hml (Or.inl ht) with
      ⟨hp, he, _, _, _⟩
    exact ⟨hp, he⟩
  · intro ht
    rcases match_lender_tier12 today app lender m hml (Or.inr ht) with
      ⟨hp, he, _, _, _⟩
    exact ⟨hp, he⟩
  · intro ht
    rcases match_lender_tier3 today app lender m hml ht with ⟨prog, hp, he⟩
    refine ⟨prog, hp, ?_⟩
    intro hany
    rcases List.any_eq_true.mp hany with ⟨r, hrmem, hr⟩
    rw [Bool.and_eq_true] at hr
    have hract : r ∈ prog.rules.filter (fun r => r.active) :=
      List.mem_filter.mpr ⟨hrmem, hr.1⟩
    have hsome : (rule_outcome today app prog r).isSome = true := by
      rw [rule_outcome_isSome]
      exact hr.2
    rcases Option.isSome_iff_exists.mp hsome with ⟨res, hres⟩
    have hpair : (r, res) ∈ evaluated_results today app prog := by
      unfold evaluated_results outcome_pairs
      apply List.mem_filterMap.mpr
      exact ⟨r, hract, by rw [hres]; rfl⟩
    rw [he]
    intro hnil
    rw [hnil] at hpair
    exact absurd hpair (List.not_mem_nil _)

/-- Application of the C7 counterexample scenarios. -/
def c7_application : LoanApplication := c6_application

/-- Active `custom` rule; the registry has no evaluator for it. -/
def c7_rule : PolicyRule :=
  { id := 3, rule_type := .custom, rule_name := "Custom underwriting",
    criteria := {}, weight := 1, is_mandatory := true, active := true }

/-- Program whose only active rule has no registered evaluator and whose
minimum fit score of 10 cannot be met by the resulting fit score 0. -/
def c7_program : PolicyProgram :=
  { id := 9, program_name := "Custom only", eligibility_conditions := none,
    rate_metadata := none, min_fit_score := some 10, active := true,
    rules := [c7_rule] }

/-- Lender of the C7 counterexample. -/
def c7_lender : Lender :=
  { id := 9, name := "Custom Lender", active := true, min_loan_amount := none,
    max_loan_amount := none, excluded_states := none,
    excluded_industries := none, programs := [c7_program] }

/-- C7 counterexample: the lone match is rejected at tier 3 with the
program set and an empty rule-evaluation list even though the retained
program has one active rule — its kind (`custom`) has no registered
evaluator, so the claim that tier-3 rejections carry a non-empty
evaluation list whenever the program has any active rules is false. -/
theorem C7_counterexample :
    (match_application_to_lenders c6_today c7_application [c7_lender]).map
      (fun m => (m.rejection_tier, Option.map (fun p => p.id) m.program,
        m.rule_evaluations.length)) = [(some 3, some 9, 0)] ∧
    (c7_program.rules.filter (fun r => r.active)).length = 1 := by
  constructor
  · rw [match_output_one]
    decide
  · decide

/-- C7 witness: the tier-1 rejection of an inactive lender through the
theorem. -/
theorem C7_tier_invariants_witness :
    ((match_application_to_lenders c6_today c6_application [c10_lender]).headI.rejection_tier = some 1 →
      (match_application_to_lenders c6_today c6_application [c10_lender]).headI.program = none ∧
      (match_application_to_lenders c6_today c6_application [c10_lender]).headI.rule_evaluations = []) ∧
    ((match_application_to_lenders c6_today c6_application [c10_lender]).headI.rejection_tier = some 2 →
      (match_application_to_lenders c6_today c6_application [c10_lender]).headI.program = none ∧
      (match_application_to_lenders c6_today c6_application [c10_lender]).headI.rule_evaluations = []) ∧
    ((match_application_to_lenders c6_today c6_application [c10_lender]).headI.rejection_tier = some 3 →
      ∃ prog, (match_application_to_lenders c6_today c6_application [c10_lender]).headI.program = some prog ∧
        ((prog.rules.any (fun r => r.active && has_registered_evaluator r.rule_type)) = true →
          (match_application_to_lenders c6_today c6_application [c10_lender]).headI.rule_evaluations ≠ [])) :=
  C7_tier_invariants c6_today c6_application [c10_lender]
    (match_application_to_lenders c6_today c6_application [c10_lender]).headI
    (by rw [match_output_one]; decide)

theorem results_totals_bounds (prs : List (PolicyRule × EvaluationResult))
    (hb : ∀ p ∈ prs, 0 ≤ p.2.score ∧ p.2.score ≤ 100 * p.2.weight) :
    0 ≤ results_total_score prs ∧
    results_total_score prs ≤ 100 * results_total_weight prs ∧
    0 ≤ results_total_weight prs := by
  induction prs with
  | nil => simp [results_total_score, results_total_weight]
  | cons p rest ih =>
    have hp := hb p (List.mem_cons_self p rest)
    have hrest := ih (fun q hq => hb q (List.mem_cons_of_mem p hq))
    have hw : 0 ≤ p.2.weight := by linarith [hp.1, hp.2]
    unfold results_total_score results_total_weight at *
    simp only [List.map_cons, List.sum_cons]
    refine ⟨by linarith [hp.1, hrest.1], by linarith [hp.2, hrest.2.1],
      by linarith [hw, hrest.2.2]⟩

theorem fit_of_bounds (ts tw : ℚ) (h0 : 0 ≤ ts) (h1 : ts ≤ 100 * tw)
    (h2 : 0 ≤ tw) : 0 ≤ fit_of ts tw ∧ fit_of ts tw ≤ 100 := by
  unfold fit_of
  split
  · next hpos =>
    refine ⟨quantize2_nonneg _ (div_nonneg h0 (le_of_lt hpos)), ?_⟩
    apply quantize2_le_hundred
    rw [div_le_iff₀ hpos]
    linarith
  · norm_num

theorem eligible_of_iff (mf : Option ℚ) (fit : ℚ) (allm : Bool)
    (hfit : 0 ≤ fit) :
    (eligible_of mf fit allm = true ↔ allm = true ∧ mf.getD 0 ≤ fit) := by
  unfold eligible_of
  cases mf with
  | none => simp [hfit]
  | some m =>
    dsimp only
    by_cases hm : m ≠ 0 ∧ fit < m
    · rw [if_pos hm]
      simp only [Option.getD_some]
      constructor
      · intro h; exact absurd h (by simp)
      · rintro ⟨_, hle⟩; linarith [hm.2]
    · rw [if_neg hm]
      push_neg at hm
      simp only [Option.getD_some]
      constructor
      · intro h
        refine ⟨h, ?_⟩
        by_cases hz : m = 0
        · rw [hz]; exact hfit
        · exact hm hz
      · exact fun h => h.1

theorem eligible_of_false (mf : Option ℚ) (fit : ℚ) :
    eligible_of mf fit false = false := by
  unfold eligible_of
  cases mf with
  | none => rfl
  | some m =>
    dsimp only
    split <;> rfl

theorem results_all_mandatory_iff (prs : List (PolicyRule × EvaluationResult)) :
    results_all_mandatory prs = true ↔
      ∀ p ∈ prs, p.2.is_mandatory = true → p.2.passed = true := by
  unfold results_all_mandatory
  rw [List.all_eq_true]
  constructor
  · intro h p hp hmand
    have h3 := h p hp
    rw [hmand] at h3
    simpa using h3
  · intro h p hp
    by_cases hm : p.2.is_mandatory
    · simp [h p hp hm]
    · simp [hm]

/-- C4: a program evaluation is eligible exactly when every recorded
mandatory rule result passed and the fit score reaches the program's
minimum fit score (defaulting to 0); in particular a failed mandatory
result forces ineligibility.  The score-bound hypothesis — every
recorded score lies in `[0, 100 × weight]` — is what the evaluators
guarantee for well-formed criteria. -/
theorem C4_eligibility_gate (today : PyDate) (app : LoanApplication)
    (program : PolicyProgram)
    (hb : ∀ p ∈ (evaluate_program today app program).rule_results,
      0 ≤ p.2.score ∧ p.2.score ≤ 100 * p.2.weight) :
    ((evaluate_program today app program).is_eligible = true ↔
      (∀ p ∈ (evaluate_program today app program).rule_results,
        p.2.is_mandatory = true → p.2.passed = true) ∧
      program.min_fit_score.getD 0 ≤
        (evaluate_program today app program).fit_score) ∧
    (∀ p ∈ (evaluate_program today app program).rule_results,
      p.2.is_mandatory = true → p.2.passed = false →
        (evaluate_program today app program).is_eligible = false) := by
  rw [evaluate_program_spec] at hb ⊢
  dsimp only at hb ⊢
  have hbt := results_totals_bounds _ hb
  have hfit := fit_of_bounds _ _ hbt.1 hbt.2.1 hbt.2.2
  constructor
  · rw [eligible_of_iff _ _ _ hfit.1, results_all_mandatory_iff]
  · intro p hp hmand hnp
    have hfalse : results_all_mandatory (evaluated_results today app program) = false := by
      rw [Bool.eq_false_iff]
      intro htrue
      have := (results_all_mandatory_iff _).mp htrue p hp hmand
      rw [hnp] at this
      exact Bool.false_ne_true this
    rw [hfalse]
    exact eligible_of_false _ _

/-- C4 witness: the concrete C6 scenario through the theorem. -/
theorem C4_eligibility_gate_witness :
    ((evaluate_program c6_today c6_application c6_program).is_eligible = true ↔
      (∀ p ∈ (evaluate_program c6_today c6_application c6_program).rule_results,
        p.2.is_mandatory = true → p.2.passed = true) ∧
      c6_program.min_fit_score.getD 0 ≤
        (evaluate_program c6_today c6_application c6_program).fit_score) :=
  (C4_eligibility_gate c6_today c6_application c6_program (by decide)).1

theorem clamp_of_bounds (x : ℚ) (h0 : 0 ≤ x) (h1 : x ≤ 100) :
    pymax 0 (pymin 100 x) = x := by
  rw [pymax_eq_max, pymin_eq_min, min_eq_right h1, max_eq_right h0]

/-- C3 (amended): the fit score equals the sum of recorded per-rule
scores divided by the sum of recorded per-rule weights — the records
covering exactly the program's active rules whose kind has a registered
evaluator — quantized to two decimals, which coincides with the clamped
value of the claim under the evaluator score bounds; a zero total
weight gives fit score 0. -/
theorem C3_fit_score_formula (today : PyDate) (app : LoanApplication)
    (program : PolicyProgram)
    (hb : ∀ p ∈ (evaluate_program today app program).rule_results,
      0 ≤ p.2.score ∧ p.2.score ≤ 100 * p.2.weight) :
    ((evaluate_program today app program).fit_score =
      pymax 0 (pymin 100 (quantize2
        (results_total_score (evaluate_program today app program).rule_results /
          results_total_weight (evaluate_program today app program).rule_results)))) ∧
    (results_total_weight (evaluate_program today app program).rule_results = 0 →
      (evaluate_program today app program).fit_score = 0) := by
  rw [evaluate_program_spec] at hb ⊢
  dsimp only at hb ⊢
  have hbt := results_totals_bounds _ hb
  constructor
  · unfold fit_of
    split
    · next hpos =>
      have h0 : 0 ≤ results_total_score (evaluated_results today app program) /
          results_total_weight (evaluated_results today app program) :=
        div_nonneg hbt.1 (le_of_lt hpos)
      have h1 : results_total_score (evaluated_results today app program) /
          results_total_weight (evaluated_results today app program) ≤ 100 := by
        rw [div_le_iff₀ hpos]; linarith [hbt.2.1]
      rw [clamp_of_bounds _ (quantize2_nonneg _ h0) (quantize2_le_hundred _ h1)]
    · next hnpos =>
      have htw : results_total_weight (evaluated_results today app program) = 0 :=
        le_antisymm (not_lt.mp hnpos) hbt.2.2
      have hts : results_total_score (evaluated_results today app program) = 0 := by
        have := hbt.2.1
        rw [htw] at this
        linarith [hbt.1]
      rw [htw, hts]
      norm_num [quantize2_zero, pymin, pymax]
  · intro htw
    unfold fit_of
    rw [htw]
    norm_num

/-- Rule of the C3 counterexample that passes with full credit. -/
def c3_fico_rule : PolicyRule :=
  { id := 11, rule_type := .min_fico, rule_name := "Minimum FICO",
    criteria := { min_score := some 600 }, weight := 1,
    is_mandatory := false, active := true }

/-- Active `custom` rule of the C3 counterexample; its weight counts
toward the claim's denominator but the engine skips it. -/
def c3_custom_rule : PolicyRule :=
  { id := 12, rule_type := .custom, rule_name := "Custom underwriting",
    criteria := {}, weight := 1, is_mandatory := false, active := true }

/-- Program of the C3 counterexample. -/
def c3_program : PolicyProgram :=
  { id := 12, program_name := "Mixed", eligibility_conditions := none,
    rate_metadata := none, min_fit_score := some 0, active := true,
    rules := [c3_fico_rule, c3_custom_rule] }

/-- C3 counterexample: the engine's fit score is 100 — the sums run
only over rules with a registered evaluator — while the claim's formula
over all active rules (the skipped `custom` rule contributing its
weight 1 to the denominator) gives 50. -/
theorem C3_counterexample :
    (evaluate_program c6_today c6_application c3_program).fit_score = 100 ∧
    fit_score_per_claim c6_today c6_application c3_program = 50 := by
  constructor
  · decide
  · decide

/-- C3 witness: the concrete C6 scenario through the theorem. -/
theorem C3_fit_score_formula_witness :
    (evaluate_program c6_today c6_application c6_program).fit_score =
      pymax 0 (pymin 100 (quantize2
        (results_total_score (evaluate_program c6_today c6_application c6_program).rule_results /
          results_total_weight (evaluate_program c6_today c6_application c6_program).rule_results))) :=
  (C3_fit_score_formula c6_today c6_application c6_program (by decide)).1

/-- C8: when a rule's evaluator raises — missing or malformed required
criteria, or any unexpected exception — the engine records a non-passed
result whose reason is `Evaluation error: <message>`, whose evidence
holds the message under the key `error`, with the rule's mandatory flag
preserved and its weight intact (so it still enters the accumulated
total weight), and the remaining active rules with registered
evaluators are still evaluated; such errors never abort the program
evaluation. -/
theorem C8_evaluator_error_policy (today : PyDate) (app : LoanApplication)
    (program : PolicyProgram) (rule : PolicyRule) (msg : String)
    (hmem : rule ∈ program.rules) (hact : rule.active = true)
    (herr : dispatch_evaluator today (mk_context app program rule) =
      some (Except.error msg)) :
    ((rule, synthetic_error_result rule msg) ∈
      (evaluate_program today app program).rule_results) ∧
    (synthetic_error_result rule msg).passed = false ∧
    (synthetic_error_result rule msg).reason = "Evaluation error: " ++ msg ∧
    List.lookup "error" (synthetic_error_result rule msg).evidence =
      some (EvVal.strV msg) ∧
    (synthetic_error_result rule msg).is_mandatory = rule.is_mandatory ∧
    (synthetic_error_result rule msg).weight = rule.weight ∧
    (∀ r ∈ program.rules, r.active = true →
      has_registered_evaluator r.rule_type = true →
        ∃ res, (r, res) ∈ (evaluate_program today app program).rule_results) := by
  rw [evaluate_program_rule_results]
  have houtcome : rule_outcome today app program rule =
      some (synthetic_error_result rule msg) := by
    unfold rule_outcome
    rw [herr]
  refine ⟨?_, rfl, rfl, rfl, rfl, rfl, ?_⟩
  · unfold evaluated_results outcome_pairs
    apply List.mem_filterMap.mpr
    refine ⟨rule, List.mem_filter.mpr ⟨hmem, hact⟩, ?_⟩
    rw [houtcome]
    rfl
  · intro r hr hra hreg
    have hsome : (rule_outcome today app program r).isSome = true := by
      rw [rule_outcome_isSome]
      exact hreg
    rcases Option.isSome_iff_exists.mp hsome with ⟨res, hres⟩
    refine ⟨res, ?_⟩
    unfold evaluated_results outcome_pairs
    apply List.mem_filterMap.mpr
    refine ⟨r, List.mem_filter.mpr ⟨hr, hra⟩, ?_⟩
    rw [hres]
    rfl

/-- Rule of the C8 witness whose required `min_score` key is absent. -/
def c8_rule : PolicyRule :=
  { id := 21, rule_type := .min_fico, rule_name := "Broken FICO rule",
    criteria := {}, weight := 3, is_mandatory := true, active := true }

/-- Program of the C8 witness: the broken rule next to a healthy one. -/
def c8_program : PolicyProgram :=
  { id := 21, program_name := "With broken rule",
    eligibility_conditions := none, rate_metadata := none,
    min_fit_score := some 0, active := true, rules := [c8_rule, c6_rule] }

/-- C8 witness: the missing-criteria error through the theorem. -/
theorem C8_evaluator_error_policy_witness :
    ((c8_rule, synthetic_error_result c8_rule
        "Required criteria field min_score is missing") ∈
      (evaluate_program c6_today c6_application c8_program).rule_results) ∧
    (synthetic_error_result c8_rule
      "Required criteria field min_score is missing").passed = false ∧
    (synthetic_error_result c8_rule
      "Required criteria field min_score is missing").reason =
        "Evaluation error: " ++ "Required criteria field min_score is missing" ∧
    List.lookup "error" (synthetic_error_result c8_rule
      "Required criteria field min_score is missing").evidence =
        some (EvVal.strV "Required criteria field min_score is missing") ∧
    (synthetic_error_result c8_rule
      "Required criteria field min_score is missing").is_mandatory =
        c8_rule.is_mandatory ∧
    (synthetic_error_result c8_rule
      "Required criteria field min_score is missing").weight = c8_rule.weight ∧
    (∀ r ∈ c8_program.rules, r.active = true →
      has_registered_evaluator r.rule_type = true →
        ∃ res, (r, res) ∈
          (evaluate_program c6_today c6_application c8_program).rule_results) :=
  C8_evaluator_error_policy c6_today c6_application c8_program c8_rule
    "Required criteria field min_score is missing"
    (by decide) (by decide) rfl

/-- C5: in the matcher output every eligible match precedes every
ineligible match, the fit score is non-increasing among entries of the
same eligibility, and entries tying on both components appear exactly
as in the unsorted per-lender pass — i.e. in the enumeration order of
the lenders in the input catalog — because the sort is stable. -/
theorem C5_output_ordering (today : PyDate) (app : LoanApplication)
    (lenders : List Lender) (i j : ℕ) (hij : i < j)
    (hi : i < (match_application_to_lenders today app lenders).length)
    (hj : j < (match_application_to_lenders today app lenders).length) :
    (((match_application_to_lenders today app lenders).get ⟨j, hj⟩).is_eligible = true →
      ((match_application_to_lenders today app lenders).get ⟨i, hi⟩).is_eligible = true) ∧
    (((match_application_to_lenders today app lenders).get ⟨i, hi⟩).is_eligible =
        ((match_application_to_lenders today app lenders).get ⟨j, hj⟩).is_eligible →
      ((match_application_to_lenders today app lenders).get ⟨j, hj⟩).fit_score ≤
        ((match_application_to_lenders today app lenders).get ⟨i, hi⟩).fit_score) ∧
    (∀ (e : Bool) (q : ℚ),
      (match_application_to_lenders today app lenders).filter
        (fun r => decide (r.is_eligible = e ∧ r.fit_score = q)) =
      (lenders.filterMap (match_lender today app)).filter
        (fun r => decide (r.is_eligible = e ∧ r.fit_score = q))) := by
  have hsorted : (match_application_to_lenders today app lenders).Pairwise
      (fun a b => match_sort_le a b) := by
    unfold match_application_to_lenders
    exact List.sorted_mergeSort match_sort_le_trans match_sort_le_total _
  have hrel : match_sort_le
      ((match_application_to_lenders today app lenders).get ⟨i, hi⟩)
      ((match_application_to_lenders today app lenders).get ⟨j, hj⟩) = true := by
    have h2 := (List.pairwise_iff_getElem.mp hsorted) i j hi hj hij
    simpa [List.get_eq_getElem] using h2
  refine ⟨?_, ?_, ?_⟩
  · intro hjel
    unfold match_sort_le at hrel
    by_cases heq : ((match_application_to_lenders today app lenders).get ⟨i, hi⟩).is_eligible =
        ((match_application_to_lenders today app lenders).get ⟨j, hj⟩).is_eligible
    · rw [heq]; exact hjel
    · rw [if_neg heq] at hrel
      exact hrel
  · intro heq
    unfold match_sort_le at hrel
    rw [if_pos heq] at hrel
    exact of_decide_eq_true hrel
  · intro e q
    unfold match_application_to_lenders
    apply mergeSort_filter_stable match_sort_le _ _ match_sort_le_trans
      match_sort_le_total
    intro a b ha hb
    have ha2 := of_decide_eq_true ha
    have hb2 := of_decide_eq_true hb
    unfold match_sort_le
    rw [if_pos (by rw [ha2.1, hb2.1])]
    rw [ha2.2, hb2.2]
    simp

/-- First inactive lender of the C5 witness scenario. -/
def c5_lender1 : Lender :=
  { id := 31, name := "Closed One", active := false, min_loan_amount := none,
    max_loan_amount := none, excluded_states := none,
    excluded_industries := none, programs := [] }

/-- Second inactive lender of the C5 witness scenario. -/
def c5_lender2 : Lender :=
  { id := 32, name := "Closed Two", active := false, min_loan_amount := none,
    max_loan_amount := none, excluded_states := none,
    excluded_industries := none, programs := [] }

theorem c5_output_length :
    (match_application_to_lenders c6_today c6_application
      [c5_lender1, c5_lender2]).length = 2 := by
  unfold match_application_to_lenders
  rw [List.length_mergeSort]
  decide

/-- C5 witness: the two-lender scenario through the theorem at indices
0 and 1. -/
theorem C5_output_ordering_witness :
    (((match_application_to_lenders c6_today c6_application [c5_lender1, c5_lender2]).get
        ⟨1, by rw [c5_output_length]; decide⟩).is_eligible = true →
      ((match_application_to_lenders c6_today c6_application [c5_lender1, c5_lender2]).get
        ⟨0, by rw [c5_output_length]; decide⟩).is_eligible = true) ∧
    (((match_application_to_lenders c6_today c6_application [c5_lender1, c5_lender2]).get
        ⟨0, by rw [c5_output_length]; decide⟩).is_eligible =
      ((match_application_to_lenders c6_today c6_application [c5_lender1, c5_lender2]).get
        ⟨1, by rw [c5_output_length]; decide⟩).is_eligible →
      ((match_application_to_lenders c6_today c6_application [c5_lender1, c5_lender2]).get
        ⟨1, by rw [c5_output_length]; decide⟩).fit_score ≤
      ((match_application_to_lenders c6_today c6_application [c5_lender1, c5_lender2]).get
        ⟨0, by rw [c5_output_length]; decide⟩).fit_score) ∧
    (∀ (e : Bool) (q : ℚ),
      (match_application_to_lenders c6_today c6_application [c5_lender1, c5_lender2]).filter
        (fun r => decide (r.is_eligible = e ∧ r.fit_score = q)) =
      ([c5_lender1, c5_lender2].filterMap (match_lender c6_today c6_application)).filter
        (fun r => decide (r.is_eligible = e ∧ r.fit_score = q))) :=
  C5_output_ordering c6_today c6_application [c5_lender1, c5_lender2] 0 1
    (by decide) (by rw [c5_output_length]; decide) (by rw [c5_output_length]; decide)

theorem dispatch_evaluator_clock_free (t1 t2 : PyDate) (app : LoanApplication)
    (program : PolicyProgram) (rule : PolicyRule)
    (h1 : rule.rule_type ≠ RuleType.time_in_business)
    (h2 : rule.rule_type ≠ RuleType.equipment_age) :
    dispatch_evaluator t1 (mk_context app program rule) =
      dispatch_evaluator t2 (mk_context app program rule) := by
  unfold dispatch_evaluator mk_context
  cases hr : rule.rule_type <;>
    first
      | exact absurd hr h1
      | exact absurd hr h2
      | rfl
      | simp only [business_evaluate, equipment_evaluate, mk_context, hr]

theorem rule_outcome_clock_free (t1 t2 : PyDate) (app : LoanApplication)
    (program : PolicyProgram) (rule : PolicyRule)
    (h1 : rule.rule_type ≠ RuleType.time_in_business)
    (h2 : rule.rule_type ≠ RuleType.equipment_age) :
    rule_outcome t1 app program rule = rule_outcome t2 app program rule := by
  unfold rule_outcome
  rw [dispatch_evaluator_clock_free t1 t2 app program rule h1 h2]

theorem evaluate_program_clock_free (t1 t2 : PyDate) (app : LoanApplication)
    (program : PolicyProgram)
    (h : ∀ r ∈ program.rules, r.active = true →
      r.rule_type ≠ RuleType.time_in_business ∧
      r.rule_type ≠ RuleType.equipment_age) :
    evaluate_program t1 app program = evaluate_program t2 app program := by
  have hev : evaluated_results t1 app program = evaluated_results t2 app program := by
    unfold evaluated_results outcome_pairs
    apply List.filterMap_congr
    intro r hr
    have hmem := List.mem_filter.mp hr
    rw [rule_outcome_clock_free t1 t2 app program r (h r hmem.1 hmem.2).1
      (h r hmem.1 hmem.2).2]
  rw [evaluate_program_spec, evaluate_program_spec, hev]

theorem match_lender_clock_free_proj (t1 t2 : PyDate) (app : LoanApplication)
    (lender : Lender)
    (h : ∀ p ∈ lender.programs, ∀ r ∈ p.rules, r.active = true →
      r.rule_type ≠ RuleType.time_in_business ∧
      r.rule_type ≠ RuleType.equipment_age) :
    Option.map match_projection (match_lender t1 app lender) =
      Option.map match_projection (match_lender t2 app lender) := by
  unfold match_lender
  cases h1 : tier1_lender_filtering app lender with
  | some reason => rfl
  | none =>
    dsimp only
    by_cases h2 : (tier2_program_selection app lender).isEmpty
    · rw [if_pos h2, if_pos h2]
    · rw [if_neg h2, if_neg h2]
      have heval : (tier2_program_selection app lender).map (evaluate_program t1 app) =
          (tier2_program_selection app lender).map (evaluate_program t2 app) := by
        apply List.map_congr_left
        intro p hp
        have hpmem : p ∈ lender.programs :=
          (List.mem_filter.mp (List.mem_filter.mp hp).1).1
        exact evaluate_program_clock_free t1 t2 app p (h p hpmem)
      rw [heval]
      cases hpick : pick_best_program
          ((tier2_program_selection app lender).map (evaluate_program t2 app)) with
      | none => rfl
      | some best => simp [match_projection]

/-- C9 (amended): for a fixed application and lender-catalog snapshot
and a fixed clock reading, the matcher is a pure function, and its
observed quintuple sequence (lender id, program id, eligibility, fit
score, rejection tier) does not depend on the clock whenever no
program in the catalog carries an active `time_in_business` or
`equipment_age` rule — the two evaluator kinds that read the system
clock. -/
theorem C9_determinism (t1 t2 : PyDate) (app : LoanApplication)
    (lenders : List Lender)
    (h : ∀ l ∈ lenders, ∀ p ∈ l.programs, ∀ r ∈ p.rules, r.active = true →
      r.rule_type ≠ RuleType.time_in_business ∧
      r.rule_type ≠ RuleType.equipment_age) :
    (match_application_to_lenders t1 app lenders).map match_projection =
      (match_application_to_lenders t2 app lenders).map match_projection := by
  unfold match_application_to_lenders
  have hle : ∀ (a : MatchResult), a ∈ lenders.filterMap (match_lender t1 app) →
      ∀ (b : MatchResult), b ∈ lenders.filterMap (match_lender t1 app) →
      match_sort_le a b = proj_sort_le (match_projection a) (match_projection b) :=
    fun a _ b _ => rfl
  have hle2 : ∀ (a : MatchResult), a ∈ lenders.filterMap (match_lender t2 app) →
      ∀ (b : MatchResult), b ∈ lenders.filterMap (match_lender t2 app) →
      match_sort_le a b = proj_sort_le (match_projection a) (match_projection b) :=
    fun a _ b _ => rfl
  rw [@List.map_mergeSort MatchResult MatchProjection match_sort_le proj_sort_le
    match_projection (lenders.filterMap (match_lender t1 app)) hle]
  rw [@List.map_mergeSort MatchResult MatchProjection match_sort_le proj_sort_le
    match_projection (lenders.filterMap (match_lender t2 app)) hle2]
  congr 1
  rw [List.map_filterMap, List.map_filterMap]
  apply List.filterMap_congr
  intro l hl
  exact match_lender_clock_free_proj t1 t2 app l (h l hl)

/-- Business of the C9 counterexample, established June 2020. -/
def c9_business : Business :=
  { industry := "Construction", legal_structure := "LLC",
    established_date := { year := 2020, month := 6 },
    annual_revenue := some 500000, state := "TX" }

/-- Application of the C9 counterexample. -/
def c9_application : LoanApplication :=
  { requested_amount := 50000, requested_term_months := 60,
    down_payment_percentage := none, business := c9_business,
    guarantor := c6_guarantor, equipment := c6_equipment }

/-- Mandatory five-year `time_in_business` rule. -/
def c9_rule : PolicyRule :=
  { id := 41, rule_type := .time_in_business, rule_name := "Five years in business",
    criteria := { min_years := some 5 }, weight := 1,
    is_mandatory := true, active := true }

/-- Program of the C9 counterexample. -/
def c9_program : PolicyProgram :=
  { id := 41, program_name := "Seasoned", eligibility_conditions := none,
    rate_metadata := none, min_fit_score := some 0, active := true,
    rules := [c9_rule] }

/-- Lender of the C9 counterexample. -/
def c9_lender : Lender :=
  { id := 41, name := "Seasoned Lender", active := true, min_loan_amount := none,
    max_loan_amount := none, excluded_states := none,
    excluded_industries := none, programs := [c9_program] }

/-- Clock reading one month before the five-year anniversary. -/
def c9_date1 : PyDate := { year := 2025, month := 5 }

/-- Clock reading one month after the five-year anniversary. -/
def c9_date2 : PyDate := { year := 2025, month := 7 }

set_option maxRecDepth 8000 in
/-- C9 counterexample: with the snapshot fixed, two matcher executions
at different clock readings produce different quintuple sequences — the
`time_in_business` evaluator reads `date.today()`, so the evaluators
are not pure functions of the application and catalog alone. -/
theorem C9_counterexample :
    ¬((match_application_to_lenders c9_date1 c9_application [c9_lender]).map
        match_projection =
      (match_application_to_lenders c9_date2 c9_application [c9_lender]).map
        match_projection) := by
  rw [match_output_one, match_output_one]
  decide

/-- C9 witness: a clock-free catalog through the amended theorem, at
two distinct clock readings. -/
theorem C9_determinism_witness :
    (match_application_to_lenders c9_date1 c6_application [c7_lender]).map
        match_projection =
      (match_application_to_lenders c9_date2 c6_application [c7_lender]).map
        match_projection :=
  C9_determinism c9_date1 c9_date2 c6_application [c7_lender] (by decide)
